import Mathlib

/-!
# The zammad_ticket_priority resource

A shallow embedding of zammad/resource_ticket_priority.go: the Terraform
resource that maps a plan to a request for the Zammad client, and the client's
response to the state, together with the parts of the Go standard library and
of the terraform-plugin-framework that the file calls.

Go types are rendered as follows: string as `go.string` (Lean's String), int
and int64 as Int (with the 64-bit range made explicit where it matters), bool
as `go.bool` (Lean's Bool), and a Go error as the text its Error method returns.
The conversion int64(x) of an int x keeps the value of x.
-/

/-- Go's builtin string type. -/
abbrev go.string : Type := String

/-- Go's builtin bool type. -/
abbrev go.bool : Type := Bool

deriving instance DecidableEq for Except

/-! ## strconv (Go standard library, 64-bit platform) -/

namespace strconv

/-- The size in bits of Go's int (strconv.IntSize on a 64-bit platform). -/
def IntSize : Nat := 64

/-- The largest uint64, maxVal of ParseUint at bitSize 64. -/
def maxUint64 : Nat := 18446744073709551615

/-- Whether an integer is a value of Go's int (64 bits, two's complement). -/
def isInt (i : Int) : Prop := -9223372036854775808 ≤ i ∧ i ≤ 9223372036854775807

instance (i : Int) : Decidable (isInt i) := by unfold isInt; infer_instance

/-- The conversion int64(u) of a uint64: the value modulo 2^64, read as two's complement. -/
def toInt64 (u : Int) : Int :=
  (u + 9223372036854775808) % 18446744073709551616 - 9223372036854775808

/-- ErrSyntax and ErrRange, the two errors a NumError wraps. -/
inductive Err where
  | ErrSyntax
  | ErrRange
  deriving DecidableEq, Repr

/-- The text of ErrSyntax and ErrRange. -/
def Err.Error : Err → go.string
  | .ErrSyntax => "invalid syntax"
  | .ErrRange => "value out of range"

/-- A failed conversion: the function, the input and the reason. -/
structure NumError where
  Func : go.string
  Num : go.string
  Err : Err
  deriving DecidableEq, Repr

/-- NumError.Error. Quote is strconv.Quote, whose tables of printable runes are
taken as a parameter. -/
def NumError.Error (Quote : go.string → go.string) (e : NumError) : go.string :=
  "strconv." ++ e.Func ++ ": parsing " ++ Quote e.Num ++ ": " ++ e.Err.Error

/-- The loop of ParseUint at base 10 and bitSize 64 over the remaining bytes,
with n the number read so far. A byte that is not a decimal digit is a syntax
error; a product or a sum that leaves uint64 is a range error. -/
def parseUintLoop : Nat → List Char → Except Err Nat
  | n, [] => .ok n
  | n, c :: cs =>
    if 48 ≤ c.toNat ∧ c.toNat ≤ 57 then
      let d := c.toNat - 48
      -- cutoff = maxUint64/10 + 1: n*base overflows from there on
      if n ≥ maxUint64 / 10 + 1 then .error .ErrRange
      else
        let n10 := n * 10
        let n1 := (n10 + d) % 18446744073709551616
        if n1 < n10 ∨ n1 > maxUint64 then .error .ErrRange
        else parseUintLoop n1 cs
    else .error .ErrSyntax

/-- ParseUint(s, 10, 64): the empty string is a syntax error. -/
def ParseUint (s : List Char) : Except Err Nat :=
  match s with
  | [] => .error .ErrSyntax
  | _ => parseUintLoop 0 s

/-- The second half of ParseInt at bitSize 0: a syntax error of ParseUint is
returned; a range error of ParseUint leaves un = maxVal and falls through to the
range check against cutoff = 2^63; then un is converted to int64 and negated. -/
def parseIntRange (neg : go.bool) : Except Err Nat → Except Err Int
  | .error .ErrSyntax => .error .ErrSyntax
  | r =>
    let un : Nat := match r with
      | .ok un => un
      | .error _ => maxUint64
    let cutoff : Nat := 2 ^ (IntSize - 1)
    if !neg && un ≥ cutoff then .error .ErrRange
    else if neg && un > cutoff then .error .ErrRange
    else
      let n := toInt64 un
      .ok (if neg then toInt64 (-n) else n)

/-- ParseInt(s, 10, 0) on the bytes of s: the empty string is a syntax error;
a leading sign is picked off, and the rest goes to ParseUint. -/
def ParseInt (s : List Char) : Except Err Int :=
  match s with
  | [] => .error .ErrSyntax
  | c :: cs =>
    if c = '+' then parseIntRange false (ParseUint cs)
    else if c = '-' then parseIntRange true (ParseUint cs)
    else parseIntRange false (ParseUint s)

/-- Atoi(s): ParseInt(s, 10, 0) converted to int, the error naming Atoi and the
whole input. (The fast path of Atoi for short inputs computes the same result.) -/
def Atoi (s : go.string) : Except NumError Int :=
  match ParseInt s.data with
  | .ok i => .ok i
  | .error e => .error { Func := "Atoi", Num := s, Err := e }

/-- The decimal digit d as a byte. -/
def digitChar (d : Nat) : Char := Char.ofNat (48 + d)

/-- The digit loop of formatBits at base 10: writes the digits of u in front of
a, the last digit first. A uint64 has at most 20 digits. -/
def formatBits : Nat → Nat → List Char → List Char
  | 0, _, a => a
  | fuel + 1, u, a =>
    if u ≥ 10 then formatBits fuel (u / 10) (digitChar (u % 10) :: a)
    else digitChar u :: a

/-- Itoa(i) = FormatInt(int64(i), 10): the decimal digits of the magnitude,
after a minus sign when i is negative. -/
def Itoa (i : Int) : go.string :=
  if i < 0 then String.mk ('-' :: formatBits 20 i.natAbs [])
  else String.mk (formatBits 20 i.natAbs [])

end strconv

/-! ## terraform-plugin-framework: diagnostics, attribute values -/

namespace diag

/-- The severity of a diagnostic. -/
inductive Severity where
  | SeverityError
  | SeverityWarning
  deriving DecidableEq, Repr

/-- A diagnostic: its severity, summary and detail. -/
structure Diagnostic where
  Severity : Severity
  Summary : go.string
  Detail : go.string
  deriving DecidableEq, Repr

/-- Diagnostics is a list of diagnostics. -/
abbrev Diagnostics : Type := List Diagnostic

/-- HasError: some diagnostic has the error severity. -/
def Diagnostics.HasError (diags : Diagnostics) : Bool :=
  diags.any fun d => d.Severity == .SeverityError

/-- Contains: an equal diagnostic is in the list. -/
def Diagnostics.Contains (diags : Diagnostics) (d : Diagnostic) : Bool :=
  diags.any fun x => x == d

/-- Append: adds the diagnostics that are not contained yet, in order. -/
def Diagnostics.Append (diags : Diagnostics) : List Diagnostic → Diagnostics
  | [] => diags
  | d :: ds =>
    if Diagnostics.Contains diags d then Diagnostics.Append diags ds
    else Diagnostics.Append (diags ++ [d]) ds

/-- NewErrorDiagnostic. -/
def NewErrorDiagnostic (summary detail : go.string) : Diagnostic :=
  { Severity := .SeverityError, Summary := summary, Detail := detail }

/-- AddError: Append of NewErrorDiagnostic(summary, detail). -/
def Diagnostics.AddError (diags : Diagnostics) (summary detail : go.string) : Diagnostics :=
  Diagnostics.Append diags [NewErrorDiagnostic summary detail]

/-- The number of error diagnostics. -/
def Diagnostics.ErrorsCount (diags : Diagnostics) : Nat :=
  diags.countP fun d => d.Severity == .SeverityError

end diag

namespace types

/-- A string attribute value: null, unknown, or a known string. -/
inductive String where
  | null
  | unknown
  | known (value : go.string)
  deriving DecidableEq, Repr

/-- A bool attribute value: null, unknown, or a known bool. -/
inductive Bool where
  | null
  | unknown
  | known (value : go.bool)
  deriving DecidableEq, Repr

/-- An int64 attribute value: null, unknown, or a known int64. -/
inductive Int64 where
  | null
  | unknown
  | known (value : Int)
  deriving DecidableEq, Repr

/-- StringValue(v): the known string v. -/
def StringValue (value : go.string) : String := .known value

/-- StringNull(): the null string. -/
def StringNull : String := .null

/-- BoolValue(v): the known bool v. -/
def BoolValue (value : go.bool) : Bool := .known value

/-- Int64Value(v): the known int64 v. -/
def Int64Value (value : Int) : Int64 := .known value

/-- ValueString: the known string, or the empty string for null and unknown. -/
def String.ValueString : String → go.string
  | .known value => value
  | _ => ""

/-- IsNull of a string value. -/
def String.IsNull : String → go.bool
  | .null => true
  | _ => false

/-- IsUnknown of a string value. -/
def String.IsUnknown : String → go.bool
  | .unknown => true
  | _ => false

/-- ValueBool: the known bool, or false for null and unknown. -/
def Bool.ValueBool : Bool → go.bool
  | .known value => value
  | _ => false

/-- IsNull of a bool value. -/
def Bool.IsNull : Bool → go.bool
  | .null => true
  | _ => false

/-- IsUnknown of a bool value. -/
def Bool.IsUnknown : Bool → go.bool
  | .unknown => true
  | _ => false

end types

/-! ## The two structs of the repository that the resource maps between -/

/-- Modelled from the spec: the transfer struct client.TicketPriority of
internal/client, whose declaration is not part of the source at hand:
`{ID int, Name, Note, UIColor, UIIcon string, Active, DefaultCreate bool,
CreatedByID, UpdatedByID int, CreatedAt, UpdatedAt string}`. -/
structure client.TicketPriority where
  ID : Int
  Name : go.string
  Note : go.string
  UIColor : go.string
  UIIcon : go.string
  Active : go.bool
  DefaultCreate : go.bool
  CreatedByID : Int
  UpdatedByID : Int
  CreatedAt : go.string
  UpdatedAt : go.string
  deriving DecidableEq, Repr

/-- The zero value of client.TicketPriority: what a composite literal leaves in
the fields it does not name. -/
def client.TicketPriority.zero : client.TicketPriority :=
  { ID := 0, Name := "", Note := "", UIColor := "", UIIcon := "", Active := false,
    DefaultCreate := false, CreatedByID := 0, UpdatedByID := 0, CreatedAt := "",
    UpdatedAt := "" }

/-- Modelled from the spec: the four methods of client.Client of internal/client
that the resource calls, each returning the transfer struct (except Delete) and
an error, the error given by its text. The client is a parameter of the
resource. -/
structure client.Client where
  CreateTicketPriority : client.TicketPriority → Except go.string client.TicketPriority
  GetTicketPriority : Int → Except go.string client.TicketPriority
  UpdateTicketPriority : client.TicketPriority → Except go.string client.TicketPriority
  DeleteTicketPriority : client.TicketPriority → Option go.string

/-- A call made on the client, with its argument. -/
inductive client.Call where
  | CreateTicketPriority (tp : client.TicketPriority)
  | GetTicketPriority (id : Int)
  | UpdateTicketPriority (tp : client.TicketPriority)
  | DeleteTicketPriority (tp : client.TicketPriority)
  deriving DecidableEq, Repr

/-- Modelled from the spec: the model struct TicketPriority of package zammad,
whose declaration is not part of the source at hand: the attributes of the
schema as framework values (id, name, note, ui_icon, ui_color, created_at and
updated_at strings; default_create and active bools; created_by_id and
updated_by_id int64s). -/
structure TicketPriority where
  ID : types.String
  Name : types.String
  Note : types.String
  UIColor : types.String
  UIIcon : types.String
  Active : types.Bool
  DefaultCreate : types.Bool
  CreatedByID : types.Int64
  UpdatedByID : types.Int64
  CreatedAt : types.String
  UpdatedAt : types.String
  deriving DecidableEq, Repr

/-- The zero value of the model struct: every attribute null. -/
def TicketPriority.zero : TicketPriority :=
  { ID := .null, Name := .null, Note := .null, UIColor := .null, UIIcon := .null,
    Active := .null, DefaultCreate := .null, CreatedByID := .null, UpdatedByID := .null,
    CreatedAt := .null, UpdatedAt := .null }

/-! ## terraform-plugin-framework: plan, state, requests and responses -/

namespace tfsdk

/-- The plan of a request: the planned object, of the shape of the schema. -/
structure Plan where
  Raw : TicketPriority
  deriving DecidableEq, Repr

/-- The state of a request or response: the object of the resource, or none for
the null state of a resource that does not exist. -/
structure State where
  Raw : Option TicketPriority
  deriving DecidableEq, Repr

/-- Plan.Get into the model struct: the planned object, without diagnostics. -/
def Plan.Get (p : Plan) : TicketPriority × diag.Diagnostics := (p.Raw, [])

/-- The diagnostic of Get on a null state: a struct cannot hold null. The text
of the framework is longer; the operations only look at its severity. -/
def nullValueDiagnostic : diag.Diagnostic :=
  diag.NewErrorDiagnostic "Value Conversion Error"
    "Received null value, however the target type cannot handle null values."

/-- State.Get into the model struct: the object of the state without
diagnostics, or an error diagnostic for the null state. -/
def State.Get (s : State) : TicketPriority × diag.Diagnostics :=
  match s.Raw with
  | some v => (v, [])
  | none => (TicketPriority.zero, [nullValueDiagnostic])

/-- State.Set from the model struct: the state holds the object, without
diagnostics. -/
def State.Set (_s : State) (v : TicketPriority) : State × diag.Diagnostics :=
  ({ Raw := some v }, [])

/-- ValueAs of a bool value into a types.Bool: the value, without diagnostics. -/
def ValueAs (val : types.Bool) : types.Bool × diag.Diagnostics := (val, [])

end tfsdk

namespace resource

/-- The request of Create. -/
structure CreateRequest where
  Plan : tfsdk.Plan

/-- The response of Create. -/
structure CreateResponse where
  State : tfsdk.State
  Diagnostics : diag.Diagnostics
  deriving DecidableEq, Repr

/-- The request of Read. -/
structure ReadRequest where
  State : tfsdk.State

/-- The response of Read. -/
structure ReadResponse where
  State : tfsdk.State
  Diagnostics : diag.Diagnostics
  deriving DecidableEq, Repr

/-- The request of Update. -/
structure UpdateRequest where
  Plan : tfsdk.Plan
  State : tfsdk.State

/-- The response of Update. -/
structure UpdateResponse where
  State : tfsdk.State
  Diagnostics : diag.Diagnostics
  deriving DecidableEq, Repr

/-- The request of Delete. -/
structure DeleteRequest where
  State : tfsdk.State

/-- The response of Delete. -/
structure DeleteResponse where
  State : tfsdk.State
  Diagnostics : diag.Diagnostics
  deriving DecidableEq, Repr

end resource

namespace planmodifier

/-- The request of a bool plan modifier. -/
structure BoolRequest where
  PlanValue : types.Bool

/-- The response of a bool plan modifier. -/
structure BoolResponse where
  PlanValue : types.Bool
  Diagnostics : diag.Diagnostics
  deriving DecidableEq, Repr

end planmodifier


namespace schema

/-- The plan modifiers the schema uses. -/
inductive PlanModifier where
  | UseStateForUnknown
  | defaultTrue
  deriving DecidableEq, Repr

/-- The kinds of attribute the schema uses. -/
inductive Kind where
  | StringAttribute
  | BoolAttribute
  | Int64Attribute
  deriving DecidableEq, Repr

/-- An attribute of the schema; a flag the source does not set is false. -/
structure Attribute where
  Kind : Kind
  Required : go.bool
  Optional : go.bool
  Computed : go.bool
  PlanModifiers : List PlanModifier
  deriving DecidableEq, Repr

end schema

/-! ## The resource -/

/-- The resource: it holds the client. -/
structure resourceTicketPriority where
  client : client.Client

/-- What an operation leaves behind: the response, and the calls it made on the
client, in order. -/
structure Ran (Resp : Type) where
  resp : Resp
  calls : List client.Call

namespace resourceTicketPriority

/-- GetSchema: the attributes of the resource, by name. -/
def GetSchema : List (go.string × schema.Attribute) :=
  [ ("id", { Kind := .StringAttribute, Required := false, Optional := false, Computed := true,
             PlanModifiers := [.UseStateForUnknown] }),
    ("name", { Kind := .StringAttribute, Required := true, Optional := false, Computed := false,
               PlanModifiers := [] }),
    ("note", { Kind := .StringAttribute, Required := false, Optional := true, Computed := false,
               PlanModifiers := [] }),
    ("ui_icon", { Kind := .StringAttribute, Required := false, Optional := true,
                  Computed := false, PlanModifiers := [] }),
    ("ui_color", { Kind := .StringAttribute, Required := false, Optional := true,
                   Computed := false, PlanModifiers := [] }),
    ("default_create", { Kind := .BoolAttribute, Required := false, Optional := true,
                         Computed := true, PlanModifiers := [.UseStateForUnknown] }),
    ("active", { Kind := .BoolAttribute, Required := false, Optional := true, Computed := true,
                 PlanModifiers := [.defaultTrue, .UseStateForUnknown] }),
    ("created_by_id", { Kind := .Int64Attribute, Required := false, Optional := false,
                        Computed := true, PlanModifiers := [.UseStateForUnknown] }),
    ("updated_by_id", { Kind := .Int64Attribute, Required := false, Optional := false,
                        Computed := true, PlanModifiers := [.UseStateForUnknown] }),
    ("created_at", { Kind := .StringAttribute, Required := false, Optional := false,
                     Computed := true, PlanModifiers := [.UseStateForUnknown] }),
    ("updated_at", { Kind := .StringAttribute, Required := false, Optional := false,
                     Computed := true, PlanModifiers := [.UseStateForUnknown] }) ]

/-- The request tpreq of Create: the six editable fields from the plan, every
other field left at its zero value. -/
def Create.tpreq (plan : TicketPriority) : client.TicketPriority :=
  { client.TicketPriority.zero with
    Name := plan.Name.ValueString
    Note := plan.Note.ValueString
    UIColor := plan.UIColor.ValueString
    UIIcon := plan.UIIcon.ValueString
    Active := plan.Active.ValueBool
    DefaultCreate := plan.DefaultCreate.ValueBool }

/-- The request updatedTP of Update: the parsed id and the six editable fields
from the plan, every other field left at its zero value. -/
def Update.updatedTP (tpID : Int) (plan : TicketPriority) : client.TicketPriority :=
  { client.TicketPriority.zero with
    ID := tpID
    Name := plan.Name.ValueString
    Note := plan.Note.ValueString
    UIColor := plan.UIColor.ValueString
    UIIcon := plan.UIIcon.ValueString
    Active := plan.Active.ValueBool
    DefaultCreate := plan.DefaultCreate.ValueBool }

/-- Create a new resource. -/
def Create (r : resourceTicketPriority) (req : resource.CreateRequest)
    (resp : resource.CreateResponse) : Ran resource.CreateResponse :=
  -- Retrieve values from plan
  let (plan, diags) := req.Plan.Get
  let resp := { resp with Diagnostics := resp.Diagnostics.Append diags }
  if resp.Diagnostics.HasError then { resp := resp, calls := [] }
  else
    let tpreq := Create.tpreq plan
    match r.client.CreateTicketPriority tpreq with
    | .error err =>
      let diags := resp.Diagnostics.AddError
        "Error creating ticket_priotiry"
        ("Could not create ticket_priority, unexpected error: " ++ err)
      { resp := { resp with Diagnostics := diags }, calls := [.CreateTicketPriority tpreq] }
    | .ok tp =>
      let result : TicketPriority :=
        { ID := types.StringValue (strconv.Itoa tp.ID)
          Name := types.StringValue tp.Name
          Note := types.StringValue tp.Note
          UIColor := types.StringValue tp.UIColor
          UIIcon := types.StringValue tp.UIIcon
          Active := types.BoolValue tp.Active
          DefaultCreate := types.BoolValue tp.DefaultCreate
          -- int64(tp.CreatedByID) and int64(tp.UpdatedByID) keep the value of the int
          CreatedByID := types.Int64Value tp.CreatedByID
          UpdatedByID := types.Int64Value tp.UpdatedByID
          CreatedAt := types.StringValue tp.CreatedAt
          UpdatedAt := types.StringValue tp.UpdatedAt }
      let result := if plan.UIColor.IsNull && tp.UIColor == "" then
        { result with UIColor := types.StringNull } else result
      let result := if plan.UIIcon.IsNull && tp.UIIcon == "" then
        { result with UIIcon := types.StringNull } else result
      let result := if plan.Note.IsNull && tp.Note == "" then
        { result with Note := types.StringNull } else result
      let (state, diags) := resp.State.Set result
      { resp := { State := state, Diagnostics := resp.Diagnostics.Append diags },
        calls := [.CreateTicketPriority tpreq] }

/-- Read resource information. -/
def Read (Quote : go.string → go.string) (r : resourceTicketPriority)
    (req : resource.ReadRequest) (resp : resource.ReadResponse) : Ran resource.ReadResponse :=
  let (state, diags) := req.State.Get
  let resp := { resp with Diagnostics := resp.Diagnostics.Append diags }
  if resp.Diagnostics.HasError then { resp := resp, calls := [] }
  else
    match strconv.Atoi state.ID.ValueString with
    | .error err =>
      let diags := resp.Diagnostics.AddError
        "Error reading ID"
        ("Could convert id " ++ state.ID.ValueString ++ ": " ++ err.Error Quote)
      { resp := { resp with Diagnostics := diags }, calls := [] }
    | .ok tpID =>
      match r.client.GetTicketPriority tpID with
      | .error err =>
        let diags := resp.Diagnostics.AddError
          "Error reading ticket_priority"
          ("Could not read ticket_priority " ++ state.ID.ValueString ++ ": " ++ err)
        { resp := { resp with Diagnostics := diags }, calls := [.GetTicketPriority tpID] }
      | .ok newtp =>
        let state := { state with Name := types.StringValue newtp.Name }
        let state := { state with CreatedAt := types.StringValue newtp.CreatedAt }
        let state := { state with Active := types.BoolValue newtp.Active }
        let state := { state with DefaultCreate := types.BoolValue newtp.DefaultCreate }
        let state := { state with UpdatedAt := types.StringValue newtp.UpdatedAt }
        -- int64(newtp.UpdatedByID) and int64(newtp.CreatedByID) keep the value of the int
        let state := { state with UpdatedByID := types.Int64Value newtp.UpdatedByID }
        let state := { state with CreatedByID := types.Int64Value newtp.CreatedByID }
        let state := if state.UIColor.IsNull && newtp.UIColor == "" then
          { state with UIColor := types.StringNull }
          else { state with UIColor := types.StringValue newtp.UIColor }
        let state := if state.UIIcon.IsNull && newtp.UIIcon == "" then
          { state with UIIcon := types.StringNull }
          else { state with UIIcon := types.StringValue newtp.UIIcon }
        let state := if state.Note.IsNull && newtp.Note == "" then
          { state with Note := types.StringNull }
          else { state with Note := types.StringValue newtp.Note }
        let (st, diags) := resp.State.Set state
        { resp := { State := st, Diagnostics := resp.Diagnostics.Append diags },
          calls := [.GetTicketPriority tpID] }

/-- Update resource. -/
def Update (Quote : go.string → go.string) (r : resourceTicketPriority)
    (req : resource.UpdateRequest) (resp : resource.UpdateResponse) :
    Ran resource.UpdateResponse :=
  let (plan, diags) := req.Plan.Get
  let resp := { resp with Diagnostics := resp.Diagnostics.Append diags }
  if resp.Diagnostics.HasError then { resp := resp, calls := [] }
  else
    let (state, diags) := req.State.Get
    let resp := { resp with Diagnostics := resp.Diagnostics.Append diags }
    if resp.Diagnostics.HasError then { resp := resp, calls := [] }
    else
      match strconv.Atoi state.ID.ValueString with
      | .error err =>
        let diags := resp.Diagnostics.AddError
          "Error reading ID"
          ("Could convert id " ++ state.ID.ValueString ++ ": " ++ err.Error Quote)
        { resp := { resp with Diagnostics := diags }, calls := [] }
      | .ok tpID =>
        let updatedTP := Update.updatedTP tpID plan
        match r.client.UpdateTicketPriority updatedTP with
        | .error err =>
          let diags := resp.Diagnostics.AddError
            "Error update order"
            ("Could not update orderID " ++ state.ID.ValueString ++ ": " ++ err)
          { resp := { resp with Diagnostics := diags },
            calls := [.UpdateTicketPriority updatedTP] }
        | .ok tp =>
          let result : TicketPriority :=
            { ID := types.StringValue (strconv.Itoa tp.ID)
              Name := types.StringValue tp.Name
              Note := types.StringValue tp.Note
              UIColor := types.StringValue tp.UIColor
              UIIcon := types.StringValue tp.UIIcon
              Active := types.BoolValue tp.Active
              DefaultCreate := types.BoolValue tp.DefaultCreate
              -- int64(tp.CreatedByID) and int64(tp.UpdatedByID) keep the value of the int
              CreatedByID := types.Int64Value tp.CreatedByID
              UpdatedByID := types.Int64Value tp.UpdatedByID
              CreatedAt := types.StringValue tp.CreatedAt
              UpdatedAt := types.StringValue tp.UpdatedAt }
          let result := if plan.UIColor.IsNull && tp.UIColor == "" then
            { result with UIColor := types.StringNull } else result
          let result := if plan.UIIcon.IsNull && tp.UIIcon == "" then
            { result with UIIcon := types.StringNull } else result
          let result := if plan.Note.IsNull && tp.Note == "" then
            { result with Note := types.StringNull } else result
          let (st, diags) := resp.State.Set result
          { resp := { State := st, Diagnostics := resp.Diagnostics.Append diags },
            calls := [.UpdateTicketPriority updatedTP] }

/-- Delete resource. -/
def Delete (Quote : go.string → go.string) (r : resourceTicketPriority)
    (req : resource.DeleteRequest) (resp : resource.DeleteResponse) :
    Ran resource.DeleteResponse :=
  let (state, diags) := req.State.Get
  let resp := { resp with Diagnostics := resp.Diagnostics.Append diags }
  if resp.Diagnostics.HasError then { resp := resp, calls := [] }
  else
    match strconv.Atoi state.ID.ValueString with
    | .error err =>
      let diags := resp.Diagnostics.AddError
        "Error reading ID"
        ("Could convert id " ++ state.ID.ValueString ++ ": " ++ err.Error Quote)
      { resp := { resp with Diagnostics := diags }, calls := [] }
    | .ok tpID =>
      let tp : client.TicketPriority := { client.TicketPriority.zero with ID := tpID }
      match r.client.DeleteTicketPriority tp with
      | some err =>
        let diags := resp.Diagnostics.AddError
          "Error deleting ticket_priority"
          ("Could not delete ticket_priority " ++ state.ID.ValueString ++ ": " ++ err)
        { resp := { resp with Diagnostics := diags }, calls := [.DeleteTicketPriority tp] }
      | none => { resp := resp, calls := [.DeleteTicketPriority tp] }

end resourceTicketPriority

namespace defaultTrue

/-- Description of the plan modifier. -/
def Description : go.string := "If value is not configured, defaults to true"

/-- PlanModifyBool: the plan value of the response becomes true when the plan
value of the request is unknown. -/
def PlanModifyBool (req : planmodifier.BoolRequest) (resp : planmodifier.BoolResponse) :
    planmodifier.BoolResponse :=
  let (str, diags) := tfsdk.ValueAs req.PlanValue
  let resp := { resp with Diagnostics := resp.Diagnostics.Append diags }
  if diag.Diagnostics.HasError diags then resp
  else if !str.IsUnknown then resp
  else { resp with PlanValue := types.BoolValue true }

end defaultTrue

/-! ## The vocabulary of the properties -/

namespace attr

/-- An attribute value of any of the three kinds of the schema. -/
inductive Value where
  | String (v : types.String)
  | Bool (v : types.Bool)
  | Int64 (v : types.Int64)
  deriving DecidableEq, Repr

end attr

/-- Modelled from the spec: the attribute of the schema each field of the model
struct is tagged with (the tfsdk tags of the declaration that is not part of
the source at hand), as a lookup by attribute name. -/
def TicketPriority.attribute (s : TicketPriority) (name : go.string) : Option attr.Value :=
  if name = "id" then some (.String s.ID)
  else if name = "name" then some (.String s.Name)
  else if name = "note" then some (.String s.Note)
  else if name = "ui_icon" then some (.String s.UIIcon)
  else if name = "ui_color" then some (.String s.UIColor)
  else if name = "default_create" then some (.Bool s.DefaultCreate)
  else if name = "active" then some (.Bool s.Active)
  else if name = "created_by_id" then some (.Int64 s.CreatedByID)
  else if name = "updated_by_id" then some (.Int64 s.UpdatedByID)
  else if name = "created_at" then some (.String s.CreatedAt)
  else if name = "updated_at" then some (.String s.UpdatedAt)
  else none

/-- The value a server response holds for an attribute of the schema: id as the
decimal string of the integer ID, the two by_id attributes as int64s, every
other attribute as the known value of the field. -/
def client.TicketPriority.attribute (tp : client.TicketPriority) (name : go.string) :
    Option attr.Value :=
  if name = "id" then some (.String (types.StringValue (strconv.Itoa tp.ID)))
  else if name = "name" then some (.String (types.StringValue tp.Name))
  else if name = "note" then some (.String (types.StringValue tp.Note))
  else if name = "ui_icon" then some (.String (types.StringValue tp.UIIcon))
  else if name = "ui_color" then some (.String (types.StringValue tp.UIColor))
  else if name = "default_create" then some (.Bool (types.BoolValue tp.DefaultCreate))
  else if name = "active" then some (.Bool (types.BoolValue tp.Active))
  else if name = "created_by_id" then some (.Int64 (types.Int64Value tp.CreatedByID))
  else if name = "updated_by_id" then some (.Int64 (types.Int64Value tp.UpdatedByID))
  else if name = "created_at" then some (.String (types.StringValue tp.CreatedAt))
  else if name = "updated_at" then some (.String (types.StringValue tp.UpdatedAt))
  else none

/-- The names of the attributes the schema marks computed, in the order of the
schema. -/
def resourceTicketPriority.computedAttributes : List go.string :=
  (resourceTicketPriority.GetSchema.filter fun a => a.2.Computed).map fun a => a.1

/-- The reconciliation of an optional string attribute: null when the tie-break
value (of the plan, or of the prior state) is null and the server returned the
empty string, the server's string otherwise. -/
def reconcile (tieBreak : types.String) (server : go.string) : types.String :=
  if tieBreak.IsNull = true ∧ server = "" then types.StringNull else types.StringValue server

/-- The state the operations are to write: the given id, every other attribute
from the server response, the three optional strings reconciled against the
tie-break object (the plan for Create and Update, the prior state for Read). -/
def reconciled (tieBreak : TicketPriority) (id : types.String) (tp : client.TicketPriority) :
    TicketPriority :=
  { ID := id
    Name := types.StringValue tp.Name
    Note := reconcile tieBreak.Note tp.Note
    UIColor := reconcile tieBreak.UIColor tp.UIColor
    UIIcon := reconcile tieBreak.UIIcon tp.UIIcon
    Active := types.BoolValue tp.Active
    DefaultCreate := types.BoolValue tp.DefaultCreate
    CreatedByID := types.Int64Value tp.CreatedByID
    UpdatedByID := types.Int64Value tp.UpdatedByID
    CreatedAt := types.StringValue tp.CreatedAt
    UpdatedAt := types.StringValue tp.UpdatedAt }

/-- The text s occurs in the text t. -/
def occursIn (s t : go.string) : Prop := ∃ a b : go.string, t = a ++ s ++ b

/-- A server that applies an update request as received: the entity keeps its
ID and its server-assigned fields, and takes the six editable fields of the
request. -/
def applyAsReceived (prev req : client.TicketPriority) : client.TicketPriority :=
  { prev with
    Name := req.Name
    Note := req.Note
    UIColor := req.UIColor
    UIIcon := req.UIIcon
    Active := req.Active
    DefaultCreate := req.DefaultCreate }

/-! ## Concrete inputs -/

namespace Examples

/-- A stand-in for strconv.Quote: the text between double quotes. -/
def Quote (s : go.string) : go.string :=
  String.mk ([Char.ofNat 34] ++ s.data ++ [Char.ofNat 34])

/-- A client that answers every call with the entity tp. -/
def answering (tp : client.TicketPriority) : resourceTicketPriority :=
  { client :=
    { CreateTicketPriority := fun _ => .ok tp
      GetTicketPriority := fun _ => .ok tp
      UpdateTicketPriority := fun _ => .ok tp
      DeleteTicketPriority := fun _ => none } }

/-- A client that fails every call with the error text msg. -/
def failing (msg : go.string) : resourceTicketPriority :=
  { client :=
    { CreateTicketPriority := fun _ => .error msg
      GetTicketPriority := fun _ => .error msg
      UpdateTicketPriority := fun _ => .error msg
      DeleteTicketPriority := fun _ => some msg } }

/-- A client that can only read: Get answers with the entity tp, and Create,
Update and Delete fail with the error text msg. -/
def readOnly (tp : client.TicketPriority) (msg : go.string) : resourceTicketPriority :=
  { client :=
    { CreateTicketPriority := fun _ => .error msg
      GetTicketPriority := fun _ => .ok tp
      UpdateTicketPriority := fun _ => .error msg
      DeleteTicketPriority := fun _ => some msg } }

/-- A client in front of a server that holds the entity prev and applies an
update request as received. -/
def storing (prev : client.TicketPriority) : resourceTicketPriority :=
  { client :=
    { CreateTicketPriority := fun req => .ok (applyAsReceived prev req)
      GetTicketPriority := fun _ => .ok prev
      UpdateTicketPriority := fun req => .ok (applyAsReceived prev req)
      DeleteTicketPriority := fun _ => none } }

/-- The plan of the example of the spec: name Urgent, everything else unset. -/
def urgentPlan : TicketPriority :=
  { TicketPriority.zero with Name := types.StringValue "Urgent" }

/-- The response of the example of the spec: id 7, name Urgent, an empty note,
not active. -/
def urgentResponse : client.TicketPriority :=
  { client.TicketPriority.zero with ID := 7, Name := "Urgent" }

/-- The state Create writes in the example of the spec. -/
def urgentState : TicketPriority :=
  { ID := types.StringValue "7", Name := types.StringValue "Urgent", Note := types.StringNull,
    UIColor := types.StringNull, UIIcon := types.StringNull, Active := types.BoolValue false,
    DefaultCreate := types.BoolValue false, CreatedByID := types.Int64Value 0,
    UpdatedByID := types.Int64Value 0, CreatedAt := types.StringValue "",
    UpdatedAt := types.StringValue "" }

/-- An entity as a server holds it: a note, an icon, active. -/
def storedEntity : client.TicketPriority :=
  { ID := 7, Name := "Urgent", Note := "call back", UIColor := "red", UIIcon := "flag",
    Active := true, DefaultCreate := true, CreatedByID := 1, UpdatedByID := 2,
    CreatedAt := "2022-01-01T00:00:00Z", UpdatedAt := "2022-01-02T00:00:00Z" }

/-- The state of the stored entity after an import under the id 007. -/
def importedState : TicketPriority :=
  { TicketPriority.zero with ID := types.StringValue "007" }

/-- A state whose id is not an integer. -/
def malformedState : TicketPriority :=
  { urgentState with ID := types.StringValue "seven" }

/-- The response handed to Create: the null state, no diagnostics. -/
def emptyCreateResponse : resource.CreateResponse := { State := { Raw := none }, Diagnostics := [] }

/-- The response handed to Read: the state of the request, no diagnostics. -/
def readResponse (st : TicketPriority) : resource.ReadResponse :=
  { State := { Raw := some st }, Diagnostics := [] }

/-- The response handed to Update: the prior state, no diagnostics. -/
def updateResponse (st : TicketPriority) : resource.UpdateResponse :=
  { State := { Raw := some st }, Diagnostics := [] }

/-- The response handed to Delete: the prior state, no diagnostics. -/
def deleteResponse (st : TicketPriority) : resource.DeleteResponse :=
  { State := { Raw := some st }, Diagnostics := [] }

/-- The state of the stored entity as Create or Read would have written it. -/
def storedState : TicketPriority :=
  { ID := types.StringValue "7", Name := types.StringValue "Urgent",
    Note := types.StringValue "call back", UIColor := types.StringValue "red",
    UIIcon := types.StringValue "flag", Active := types.BoolValue true,
    DefaultCreate := types.BoolValue true, CreatedByID := types.Int64Value 1,
    UpdatedByID := types.Int64Value 2, CreatedAt := types.StringValue "2022-01-01T00:00:00Z",
    UpdatedAt := types.StringValue "2022-01-02T00:00:00Z" }

end Examples

/-! ## Lemmas: strconv -/

namespace strconv

theorem digitChar_toNat (d : Nat) (h : d < 10) : (digitChar d).toNat = 48 + d := by
  interval_cases d <;> rfl

theorem digitChar_ne_sign (d : Nat) (h : d < 10) : digitChar d ≠ '+' ∧ digitChar d ≠ '-' := by
  interval_cases d <;> decide

theorem parseUintLoop_digit (n d : Nat) (rest : List Char) (hd : d < 10)
    (hn : n * 10 + d ≤ maxUint64) :
    parseUintLoop n (digitChar d :: rest) = parseUintLoop (n * 10 + d) rest := by
  unfold maxUint64 at hn
  rw [parseUintLoop]
  simp only [digitChar_toNat d hd, maxUint64]
  have h1 : 48 ≤ 48 + d ∧ 48 + d ≤ 57 := by omega
  have h2 : ¬ (n ≥ 18446744073709551615 / 10 + 1) := by omega
  have h3 : (n * 10 + (48 + d - 48)) % 18446744073709551616 = n * 10 + d := by omega
  rw [if_pos h1, if_neg h2, h3]
  have h4 : ¬ (n * 10 + d < n * 10 ∨ n * 10 + d > 18446744073709551615) := by omega
  rw [if_neg h4]

theorem parseUintLoop_formatBits (fuel : Nat) : ∀ (u : Nat) (rest : List Char),
    u < 10 ^ fuel → u ≤ maxUint64 →
    parseUintLoop 0 (formatBits fuel u rest) = parseUintLoop u rest := by
  induction fuel with
  | zero =>
    intro u rest hu _
    have : u = 0 := by simpa using hu
    subst this
    rfl
  | succ fuel ih =>
    intro u rest hu hmax
    rw [formatBits]
    by_cases h10 : u ≥ 10
    · rw [if_pos h10, ih (u / 10) _ (by rw [pow_succ] at hu; omega) (by omega)]
      rw [parseUintLoop_digit _ _ _ (Nat.mod_lt _ (by omega)) (by omega)]
      congr 1
      omega
    · rw [if_neg h10, parseUintLoop_digit 0 u rest (by omega) (by unfold maxUint64; omega)]
      simp

theorem formatBits_head (fuel : Nat) : ∀ (u : Nat) (rest : List Char),
    ∃ d t, d < 10 ∧ formatBits (fuel + 1) u rest = digitChar d :: t := by
  induction fuel with
  | zero =>
    intro u rest
    rw [formatBits]
    by_cases h10 : u ≥ 10
    · exact ⟨u % 10, rest, Nat.mod_lt _ (by omega), by rw [if_pos h10]; rfl⟩
    · exact ⟨u, rest, by omega, by rw [if_neg h10]⟩
  | succ fuel ih =>
    intro u rest
    rw [formatBits]
    by_cases h10 : u ≥ 10
    · rw [if_pos h10]; exact ih _ _
    · exact ⟨u, rest, by omega, by rw [if_neg h10]⟩

theorem ParseUint_formatBits (u : Nat) (hu : u ≤ maxUint64) :
    ParseUint (formatBits 20 u []) = .ok u := by
  obtain ⟨d, t, _, hdt⟩ := formatBits_head 19 u []
  have h := parseUintLoop_formatBits 20 u [] (by unfold maxUint64 at hu; omega) hu
  rw [hdt] at h ⊢
  simp only [ParseUint]
  rw [h]; rfl

theorem parseIntRange_pos (m : Nat) (hm : m < 9223372036854775808) :
    parseIntRange false (.ok m) = .ok (m : Int) := by
  have h1 : ¬ (m ≥ 2 ^ (64 - 1)) := by norm_num; omega
  simp only [parseIntRange, IntSize, toInt64, h1]
  simp
  omega

theorem parseIntRange_neg (m : Nat) (hm : m ≤ 9223372036854775808) :
    parseIntRange true (.ok m) = .ok (-(m : Int)) := by
  have h1 : ¬ (m > 2 ^ (64 - 1)) := by norm_num; omega
  simp only [parseIntRange, IntSize, toInt64, h1]
  simp
  omega

theorem ParseInt_formatBits (m : Nat) (hm : m < 9223372036854775808) :
    ParseInt (formatBits 20 m []) = .ok (m : Int) := by
  obtain ⟨d, t, hd, hdt⟩ := formatBits_head 19 m []
  obtain ⟨hplus, hminus⟩ := digitChar_ne_sign d hd
  have hP := ParseUint_formatBits m (by unfold maxUint64; omega)
  rw [hdt] at hP ⊢
  simp only [ParseInt]
  rw [if_neg hplus, if_neg hminus, hP, parseIntRange_pos m hm]

theorem ParseInt_minus_formatBits (m : Nat) (hm : m ≤ 9223372036854775808) :
    ParseInt ('-' :: formatBits 20 m []) = .ok (-(m : Int)) := by
  have hP := ParseUint_formatBits m (by unfold maxUint64; omega)
  simp only [ParseInt]
  rw [hP, parseIntRange_neg m hm]
  simp

/-- Atoi reads back what Itoa writes, for every value of Go's int. -/
theorem Atoi_Itoa (i : Int) (hi : isInt i) : Atoi (Itoa i) = .ok i := by
  obtain ⟨hlo, hhi⟩ := hi
  unfold Atoi Itoa
  by_cases hneg : i < 0
  · rw [if_pos hneg]
    simp only []
    rw [ParseInt_minus_formatBits _ (by omega)]
    simp only []
    congr 1
    omega
  · rw [if_neg hneg]
    simp only []
    rw [ParseInt_formatBits _ (by omega)]
    simp only []
    congr 1
    omega

end strconv

/-! ## Lemmas: diagnostics -/

namespace diag

theorem Append_nil (diags : Diagnostics) : Diagnostics.Append diags [] = diags := rfl

theorem Contains_error (diags : Diagnostics) (summary detail : go.string)
    (h : Diagnostics.HasError diags = false) :
    Diagnostics.Contains diags (NewErrorDiagnostic summary detail) = false := by
  unfold Diagnostics.HasError at h
  unfold Diagnostics.Contains
  rw [List.any_eq_false] at h ⊢
  intro x hx heq
  apply h x hx
  have : x = NewErrorDiagnostic summary detail := by simpa using heq
  rw [this]
  rfl

theorem AddError_eq (diags : Diagnostics) (summary detail : go.string)
    (h : Diagnostics.HasError diags = false) :
    Diagnostics.AddError diags summary detail = diags ++ [NewErrorDiagnostic summary detail] := by
  unfold Diagnostics.AddError
  rw [Diagnostics.Append, Contains_error diags summary detail h]
  rfl

theorem ErrorsCount_eq_zero (diags : Diagnostics) (h : Diagnostics.HasError diags = false) :
    Diagnostics.ErrorsCount diags = 0 := by
  unfold Diagnostics.HasError at h
  unfold Diagnostics.ErrorsCount
  rw [List.any_eq_false] at h
  rw [List.countP_eq_zero]
  exact h

theorem ErrorsCount_append_error (diags : Diagnostics) (summary detail : go.string) :
    Diagnostics.ErrorsCount (diags ++ [NewErrorDiagnostic summary detail]) =
      Diagnostics.ErrorsCount diags + 1 := by
  unfold Diagnostics.ErrorsCount
  rw [List.countP_append]
  rfl

end diag

/-! ## Lemmas: the four operations, branch by branch -/

namespace resourceTicketPriority

theorem Create_guard (r : resourceTicketPriority) (req : resource.CreateRequest)
    (resp : resource.CreateResponse) (h : resp.Diagnostics.HasError = true) :
    r.Create req resp = { resp := resp, calls := [] } := by
  simp [Create, tfsdk.Plan.Get, diag.Append_nil, h]

theorem Create_error (r : resourceTicketPriority) (req : resource.CreateRequest)
    (resp : resource.CreateResponse) (err : go.string)
    (h : resp.Diagnostics.HasError = false)
    (hcall : r.client.CreateTicketPriority (Create.tpreq req.Plan.Raw) = .error err) :
    r.Create req resp =
      { resp := { resp with Diagnostics := resp.Diagnostics ++
                    [diag.NewErrorDiagnostic "Error creating ticket_priotiry"
                      ("Could not create ticket_priority, unexpected error: " ++ err)] },
        calls := [.CreateTicketPriority (Create.tpreq req.Plan.Raw)] } := by
  simp [Create, tfsdk.Plan.Get, diag.Append_nil, h, hcall, diag.AddError_eq]

theorem Create_ok (r : resourceTicketPriority) (req : resource.CreateRequest)
    (resp : resource.CreateResponse) (tp : client.TicketPriority)
    (h : resp.Diagnostics.HasError = false)
    (hcall : r.client.CreateTicketPriority (Create.tpreq req.Plan.Raw) = .ok tp) :
    r.Create req resp =
      { resp := { State := { Raw := some (reconciled req.Plan.Raw
                    (types.StringValue (strconv.Itoa tp.ID)) tp) },
                  Diagnostics := resp.Diagnostics },
        calls := [.CreateTicketPriority (Create.tpreq req.Plan.Raw)] } := by
  simp only [Create, tfsdk.Plan.Get, diag.Append_nil, h, hcall, tfsdk.State.Set, reconciled,
    reconcile]
  simp
  split_ifs <;> simp_all

theorem Read_parse_error (Quote : go.string → go.string) (r : resourceTicketPriority)
    (req : resource.ReadRequest) (resp : resource.ReadResponse) (state : TicketPriority)
    (err : strconv.NumError)
    (hstate : req.State.Raw = some state)
    (h : resp.Diagnostics.HasError = false)
    (hid : strconv.Atoi state.ID.ValueString = .error err) :
    r.Read Quote req resp =
      { resp := { resp with Diagnostics := resp.Diagnostics ++
                    [diag.NewErrorDiagnostic "Error reading ID"
                      ("Could convert id " ++ state.ID.ValueString ++ ": " ++ err.Error Quote)] },
        calls := [] } := by
  simp [Read, tfsdk.State.Get, hstate, diag.Append_nil, h, hid, diag.AddError_eq]

theorem Read_error (Quote : go.string → go.string) (r : resourceTicketPriority)
    (req : resource.ReadRequest) (resp : resource.ReadResponse) (state : TicketPriority)
    (tpID : Int) (err : go.string)
    (hstate : req.State.Raw = some state)
    (h : resp.Diagnostics.HasError = false)
    (hid : strconv.Atoi state.ID.ValueString = .ok tpID)
    (hcall : r.client.GetTicketPriority tpID = .error err) :
    r.Read Quote req resp =
      { resp := { resp with Diagnostics := resp.Diagnostics ++
                    [diag.NewErrorDiagnostic "Error reading ticket_priority"
                      ("Could not read ticket_priority " ++ state.ID.ValueString ++ ": " ++ err)] },
        calls := [.GetTicketPriority tpID] } := by
  simp [Read, tfsdk.State.Get, hstate, diag.Append_nil, h, hid, hcall, diag.AddError_eq]

theorem Read_ok (Quote : go.string → go.string) (r : resourceTicketPriority)
    (req : resource.ReadRequest) (resp : resource.ReadResponse) (state : TicketPriority)
    (tpID : Int) (newtp : client.TicketPriority)
    (hstate : req.State.Raw = some state)
    (h : resp.Diagnostics.HasError = false)
    (hid : strconv.Atoi state.ID.ValueString = .ok tpID)
    (hcall : r.client.GetTicketPriority tpID = .ok newtp) :
    r.Read Quote req resp =
      { resp := { State := { Raw := some (reconciled state state.ID newtp) },
                  Diagnostics := resp.Diagnostics },
        calls := [.GetTicketPriority tpID] } := by
  simp only [Read, tfsdk.State.Get, hstate, diag.Append_nil, h, hid, hcall, tfsdk.State.Set,
    reconciled, reconcile]
  simp
  split_ifs <;> simp_all

theorem Update_parse_error (Quote : go.string → go.string) (r : resourceTicketPriority)
    (req : resource.UpdateRequest) (resp : resource.UpdateResponse) (state : TicketPriority)
    (err : strconv.NumError)
    (hstate : req.State.Raw = some state)
    (h : resp.Diagnostics.HasError = false)
    (hid : strconv.Atoi state.ID.ValueString = .error err) :
    r.Update Quote req resp =
      { resp := { resp with Diagnostics := resp.Diagnostics ++
                    [diag.NewErrorDiagnostic "Error reading ID"
                      ("Could convert id " ++ state.ID.ValueString ++ ": " ++ err.Error Quote)] },
        calls := [] } := by
  simp [Update, tfsdk.Plan.Get, tfsdk.State.Get, hstate, diag.Append_nil, h, hid,
    diag.AddError_eq]

theorem Update_error (Quote : go.string → go.string) (r : resourceTicketPriority)
    (req : resource.UpdateRequest) (resp : resource.UpdateResponse) (state : TicketPriority)
    (tpID : Int) (err : go.string)
    (hstate : req.State.Raw = some state)
    (h : resp.Diagnostics.HasError = false)
    (hid : strconv.Atoi state.ID.ValueString = .ok tpID)
    (hcall : r.client.UpdateTicketPriority (Update.updatedTP tpID req.Plan.Raw) = .error err) :
    r.Update Quote req resp =
      { resp := { resp with Diagnostics := resp.Diagnostics ++
                    [diag.NewErrorDiagnostic "Error update order"
                      ("Could not update orderID " ++ state.ID.ValueString ++ ": " ++ err)] },
        calls := [.UpdateTicketPriority (Update.updatedTP tpID req.Plan.Raw)] } := by
  simp [Update, tfsdk.Plan.Get, tfsdk.State.Get, hstate, diag.Append_nil, h, hid, hcall,
    diag.AddError_eq]

theorem Update_ok (Quote : go.string → go.string) (r : resourceTicketPriority)
    (req : resource.UpdateRequest) (resp : resource.UpdateResponse) (state : TicketPriority)
    (tpID : Int) (tp : client.TicketPriority)
    (hstate : req.State.Raw = some state)
    (h : resp.Diagnostics.HasError = false)
    (hid : strconv.Atoi state.ID.ValueString = .ok tpID)
    (hcall : r.client.UpdateTicketPriority (Update.updatedTP tpID req.Plan.Raw) = .ok tp) :
    r.Update Quote req resp =
      { resp := { State := { Raw := some (reconciled req.Plan.Raw
                    (types.StringValue (strconv.Itoa tp.ID)) tp) },
                  Diagnostics := resp.Diagnostics },
        calls := [.UpdateTicketPriority (Update.updatedTP tpID req.Plan.Raw)] } := by
  simp only [Update, tfsdk.Plan.Get, tfsdk.State.Get, hstate, diag.Append_nil, h, hid, hcall,
    tfsdk.State.Set, reconciled, reconcile]
  simp
  split_ifs <;> simp_all

theorem Delete_parse_error (Quote : go.string → go.string) (r : resourceTicketPriority)
    (req : resource.DeleteRequest) (resp : resource.DeleteResponse) (state : TicketPriority)
    (err : strconv.NumError)
    (hstate : req.State.Raw = some state)
    (h : resp.Diagnostics.HasError = false)
    (hid : strconv.Atoi state.ID.ValueString = .error err) :
    r.Delete Quote req resp =
      { resp := { resp with Diagnostics := resp.Diagnostics ++
                    [diag.NewErrorDiagnostic "Error reading ID"
                      ("Could convert id " ++ state.ID.ValueString ++ ": " ++ err.Error Quote)] },
        calls := [] } := by
  simp [Delete, tfsdk.State.Get, hstate, diag.Append_nil, h, hid, diag.AddError_eq]

theorem Delete_error (Quote : go.string → go.string) (r : resourceTicketPriority)
    (req : resource.DeleteRequest) (resp : resource.DeleteResponse) (state : TicketPriority)
    (tpID : Int) (err : go.string)
    (hstate : req.State.Raw = some state)
    (h : resp.Diagnostics.HasError = false)
    (hid : strconv.Atoi state.ID.ValueString = .ok tpID)
    (hcall : r.client.DeleteTicketPriority { client.TicketPriority.zero with ID := tpID } =
      some err) :
    r.Delete Quote req resp =
      { resp := { resp with Diagnostics := resp.Diagnostics ++
                    [diag.NewErrorDiagnostic "Error deleting ticket_priority"
                      ("Could not delete ticket_priority " ++ state.ID.ValueString ++ ": " ++
                        err)] },
        calls := [.DeleteTicketPriority { client.TicketPriority.zero with ID := tpID }] } := by
  simp [Delete, tfsdk.State.Get, hstate, diag.Append_nil, h, hid, hcall, diag.AddError_eq]

theorem Delete_ok (Quote : go.string → go.string) (r : resourceTicketPriority)
    (req : resource.DeleteRequest) (resp : resource.DeleteResponse) (state : TicketPriority)
    (tpID : Int)
    (hstate : req.State.Raw = some state)
    (h : resp.Diagnostics.HasError = false)
    (hid : strconv.Atoi state.ID.ValueString = .ok tpID)
    (hcall : r.client.DeleteTicketPriority { client.TicketPriority.zero with ID := tpID } =
      none) :
    r.Delete Quote req resp =
      { resp := resp,
        calls := [.DeleteTicketPriority { client.TicketPriority.zero with ID := tpID }] } := by
  simp [Delete, tfsdk.State.Get, hstate, diag.Append_nil, h, hid, hcall]

end resourceTicketPriority

/-! ## Lemmas: reconciliation -/

theorem reconciled_idem (tieBreak : TicketPriority) (id : types.String)
    (tp : client.TicketPriority) :
    reconciled (reconciled tieBreak id tp) id tp = reconciled tieBreak id tp := by
  simp only [reconciled, reconcile]
  congr 1 <;> split_ifs <;> simp_all [types.String.IsNull, types.StringNull, types.StringValue]

theorem reconciled_ID (tieBreak : TicketPriority) (id : types.String)
    (tp : client.TicketPriority) : (reconciled tieBreak id tp).ID = id := rfl

theorem reconcile_congr (a b : types.String) (server : go.string) (h : a.IsNull = b.IsNull) :
    reconcile a server = reconcile b server := by
  simp only [reconcile, h]

theorem occursIn_last (a s : go.string) : occursIn s (a ++ s) :=
  ⟨a, "", by simp⟩

theorem occursIn_middle (a s b c : go.string) : occursIn s (a ++ s ++ b ++ c) :=
  ⟨a, b ++ c, by simp [String.append_assoc]⟩


/-! ## The properties of the specification -/

/-- C1: when the client's Create succeeds with the response tp, the state that
Create writes holds, for each of note, ui_icon and ui_color, null when the plan's
value is null and the response's string is empty, and the response's string as a
known value otherwise; in particular a non-empty string of the response is
stored verbatim whatever the plan holds. -/
theorem create_reconciles_optional_fields (r : resourceTicketPriority)
    (plan : TicketPriority) (resp : resource.CreateResponse) (tp : client.TicketPriority)
    (hresp : resp.Diagnostics.HasError = false)
    (hcall : r.client.CreateTicketPriority (resourceTicketPriority.Create.tpreq plan) = .ok tp) :
    ∃ st, (r.Create { Plan := { Raw := plan } } resp).resp.State.Raw = some st ∧
      st.Note = (if plan.Note.IsNull = true ∧ tp.Note = "" then types.StringNull
        else types.StringValue tp.Note) ∧
      st.UIIcon = (if plan.UIIcon.IsNull = true ∧ tp.UIIcon = "" then types.StringNull
        else types.StringValue tp.UIIcon) ∧
      st.UIColor = (if plan.UIColor.IsNull = true ∧ tp.UIColor = "" then types.StringNull
        else types.StringValue tp.UIColor) ∧
      (tp.Note ≠ "" → st.Note = types.StringValue tp.Note) ∧
      (tp.UIIcon ≠ "" → st.UIIcon = types.StringValue tp.UIIcon) ∧
      (tp.UIColor ≠ "" → st.UIColor = types.StringValue tp.UIColor) := by
  rw [resourceTicketPriority.Create_ok r _ resp tp hresp hcall]
  refine ⟨_, rfl, rfl, rfl, rfl, ?_, ?_, ?_⟩ <;> intro h <;> simp [reconciled, reconcile, h]

/-- The example of the spec for C1: the plan with name Urgent and nothing else set,
answered with id 7, name Urgent, an empty note and not active, gives the state
with id "7", name Urgent, a null note and active false. -/
theorem create_reconciles_optional_fields_witness :
    Examples.emptyCreateResponse.Diagnostics.HasError = false ∧
    (Examples.answering Examples.urgentResponse).client.CreateTicketPriority
      (resourceTicketPriority.Create.tpreq Examples.urgentPlan) = .ok Examples.urgentResponse ∧
    (resourceTicketPriority.Create (Examples.answering Examples.urgentResponse)
      { Plan := { Raw := Examples.urgentPlan } } Examples.emptyCreateResponse).resp.State.Raw =
        some Examples.urgentState ∧
    ∃ st, (resourceTicketPriority.Create (Examples.answering Examples.urgentResponse)
        { Plan := { Raw := Examples.urgentPlan } } Examples.emptyCreateResponse).resp.State.Raw =
          some st ∧
      st.Note = (if Examples.urgentPlan.Note.IsNull = true ∧ Examples.urgentResponse.Note = ""
        then types.StringNull else types.StringValue Examples.urgentResponse.Note) ∧
      st.UIIcon = (if Examples.urgentPlan.UIIcon.IsNull = true ∧
        Examples.urgentResponse.UIIcon = "" then types.StringNull
        else types.StringValue Examples.urgentResponse.UIIcon) ∧
      st.UIColor = (if Examples.urgentPlan.UIColor.IsNull = true ∧
        Examples.urgentResponse.UIColor = "" then types.StringNull
        else types.StringValue Examples.urgentResponse.UIColor) ∧
      (Examples.urgentResponse.Note ≠ "" → st.Note = types.StringValue Examples.urgentResponse.Note) ∧
      (Examples.urgentResponse.UIIcon ≠ "" →
        st.UIIcon = types.StringValue Examples.urgentResponse.UIIcon) ∧
      (Examples.urgentResponse.UIColor ≠ "" →
        st.UIColor = types.StringValue Examples.urgentResponse.UIColor) :=
  ⟨rfl, rfl, by decide,
    create_reconciles_optional_fields (Examples.answering Examples.urgentResponse)
      Examples.urgentPlan Examples.emptyCreateResponse Examples.urgentResponse rfl rfl⟩

/-- C2: when the id of the prior state parses and the client's Get succeeds with
the response tp, the state that Read writes keeps the id of the prior state,
takes name, active, default_create, created_by_id, updated_by_id, created_at and
updated_at from tp, and holds for each of note, ui_icon and ui_color null when
the prior state's value is null and tp's string is empty, and tp's string as a
known value otherwise. -/
theorem read_overwrites_all_but_id (Quote : go.string → go.string)
    (r : resourceTicketPriority) (state : TicketPriority) (resp : resource.ReadResponse)
    (tpID : Int) (tp : client.TicketPriority)
    (hresp : resp.Diagnostics.HasError = false)
    (hid : strconv.Atoi state.ID.ValueString = .ok tpID)
    (hcall : r.client.GetTicketPriority tpID = .ok tp) :
    ∃ st, (r.Read Quote { State := { Raw := some state } } resp).resp.State.Raw = some st ∧
      st.ID = state.ID ∧
      st.Name = types.StringValue tp.Name ∧
      st.Active = types.BoolValue tp.Active ∧
      st.DefaultCreate = types.BoolValue tp.DefaultCreate ∧
      st.CreatedByID = types.Int64Value tp.CreatedByID ∧
      st.UpdatedByID = types.Int64Value tp.UpdatedByID ∧
      st.CreatedAt = types.StringValue tp.CreatedAt ∧
      st.UpdatedAt = types.StringValue tp.UpdatedAt ∧
      st.Note = (if state.Note.IsNull = true ∧ tp.Note = "" then types.StringNull
        else types.StringValue tp.Note) ∧
      st.UIIcon = (if state.UIIcon.IsNull = true ∧ tp.UIIcon = "" then types.StringNull
        else types.StringValue tp.UIIcon) ∧
      st.UIColor = (if state.UIColor.IsNull = true ∧ tp.UIColor = "" then types.StringNull
        else types.StringValue tp.UIColor) := by
  rw [resourceTicketPriority.Read_ok Quote r _ resp state tpID tp rfl hresp hid hcall]
  exact ⟨_, rfl, rfl, rfl, rfl, rfl, rfl, rfl, rfl, rfl, rfl, rfl, rfl⟩

/-- Read of the state written in the example of the spec, against a server that
still holds the response of the example: the state is read back unchanged. -/
theorem read_overwrites_all_but_id_witness :
    (Examples.readResponse Examples.urgentState).Diagnostics.HasError = false ∧
    strconv.Atoi Examples.urgentState.ID.ValueString = .ok 7 ∧
    (Examples.answering Examples.urgentResponse).client.GetTicketPriority 7 =
      .ok Examples.urgentResponse ∧
    (resourceTicketPriority.Read Examples.Quote (Examples.answering Examples.urgentResponse)
      { State := { Raw := some Examples.urgentState } }
      (Examples.readResponse Examples.urgentState)).resp.State.Raw = some Examples.urgentState ∧
    ∃ st, (resourceTicketPriority.Read Examples.Quote
        (Examples.answering Examples.urgentResponse)
        { State := { Raw := some Examples.urgentState } }
        (Examples.readResponse Examples.urgentState)).resp.State.Raw = some st ∧
      st.ID = Examples.urgentState.ID ∧
      st.Name = types.StringValue Examples.urgentResponse.Name ∧
      st.Active = types.BoolValue Examples.urgentResponse.Active ∧
      st.DefaultCreate = types.BoolValue Examples.urgentResponse.DefaultCreate ∧
      st.CreatedByID = types.Int64Value Examples.urgentResponse.CreatedByID ∧
      st.UpdatedByID = types.Int64Value Examples.urgentResponse.UpdatedByID ∧
      st.CreatedAt = types.StringValue Examples.urgentResponse.CreatedAt ∧
      st.UpdatedAt = types.StringValue Examples.urgentResponse.UpdatedAt ∧
      st.Note = (if Examples.urgentState.Note.IsNull = true ∧ Examples.urgentResponse.Note = ""
        then types.StringNull else types.StringValue Examples.urgentResponse.Note) ∧
      st.UIIcon = (if Examples.urgentState.UIIcon.IsNull = true ∧
        Examples.urgentResponse.UIIcon = "" then types.StringNull
        else types.StringValue Examples.urgentResponse.UIIcon) ∧
      st.UIColor = (if Examples.urgentState.UIColor.IsNull = true ∧
        Examples.urgentResponse.UIColor = "" then types.StringNull
        else types.StringValue Examples.urgentResponse.UIColor) :=
  ⟨rfl, by decide, rfl, by decide,
    read_overwrites_all_but_id Examples.Quote (Examples.answering Examples.urgentResponse)
      Examples.urgentState (Examples.readResponse Examples.urgentState) 7
      Examples.urgentResponse rfl (by decide) rfl⟩

/-- C3: Update maps the plan and the server response to the state as Create
does: when the id of the prior state parses and the client's Update returns tp,
the state Update writes is the state Create writes when the client's Create
returns tp for the same plan; and Read of a prior state whose note, ui_icon and
ui_color are null exactly where the plan's are, answered with tp, writes the
same values for note, ui_icon and ui_color. -/
theorem update_maps_like_create (Quote : go.string → go.string)
    (r : resourceTicketPriority) (plan state : TicketPriority)
    (respU : resource.UpdateResponse) (respC : resource.CreateResponse)
    (tpID : Int) (tp : client.TicketPriority)
    (hU : respU.Diagnostics.HasError = false)
    (hC : respC.Diagnostics.HasError = false)
    (hid : strconv.Atoi state.ID.ValueString = .ok tpID)
    (hupd : r.client.UpdateTicketPriority
      (resourceTicketPriority.Update.updatedTP tpID plan) = .ok tp)
    (hcre : r.client.CreateTicketPriority (resourceTicketPriority.Create.tpreq plan) = .ok tp) :
    (∃ st, (r.Update Quote { Plan := { Raw := plan }, State := { Raw := some state } }
        respU).resp.State.Raw = some st ∧
      (r.Create { Plan := { Raw := plan } } respC).resp.State.Raw = some st) ∧
    ∀ (prior : TicketPriority) (respR : resource.ReadResponse) (priorID : Int),
      respR.Diagnostics.HasError = false →
      strconv.Atoi prior.ID.ValueString = .ok priorID →
      r.client.GetTicketPriority priorID = .ok tp →
      prior.Note.IsNull = plan.Note.IsNull →
      prior.UIIcon.IsNull = plan.UIIcon.IsNull →
      prior.UIColor.IsNull = plan.UIColor.IsNull →
      ∃ sr sc, (r.Read Quote { State := { Raw := some prior } } respR).resp.State.Raw = some sr ∧
        (r.Create { Plan := { Raw := plan } } respC).resp.State.Raw = some sc ∧
        sr.Note = sc.Note ∧ sr.UIIcon = sc.UIIcon ∧ sr.UIColor = sc.UIColor := by
  rw [resourceTicketPriority.Update_ok Quote r _ respU state tpID tp rfl hU hid hupd,
    resourceTicketPriority.Create_ok r _ respC tp hC hcre]
  refine ⟨⟨_, rfl, rfl⟩, ?_⟩
  intro prior respR priorID hR hpid hget hn hi hc
  rw [resourceTicketPriority.Read_ok Quote r _ respR prior priorID tp rfl hR hpid hget]
  exact ⟨_, _, rfl, rfl, reconcile_congr _ _ _ hn, reconcile_congr _ _ _ hi,
    reconcile_congr _ _ _ hc⟩

/-- Update of the stored state with the plan of the example, and Create with the
same plan, answered alike, write the same state; Read of a state with the same
null attributes agrees on the optional strings. -/
theorem update_maps_like_create_witness :
    (∃ st, (resourceTicketPriority.Update Examples.Quote
        (Examples.answering Examples.urgentResponse)
        { Plan := { Raw := Examples.urgentPlan }, State := { Raw := some Examples.storedState } }
        (Examples.updateResponse Examples.storedState)).resp.State.Raw = some st ∧
      (resourceTicketPriority.Create (Examples.answering Examples.urgentResponse)
        { Plan := { Raw := Examples.urgentPlan } }
        Examples.emptyCreateResponse).resp.State.Raw = some st) ∧
    ∃ sr sc, (resourceTicketPriority.Read Examples.Quote
        (Examples.answering Examples.urgentResponse)
        { State := { Raw := some Examples.urgentState } }
        (Examples.readResponse Examples.urgentState)).resp.State.Raw = some sr ∧
      (resourceTicketPriority.Create (Examples.answering Examples.urgentResponse)
        { Plan := { Raw := Examples.urgentPlan } }
        Examples.emptyCreateResponse).resp.State.Raw = some sc ∧
      sr.Note = sc.Note ∧ sr.UIIcon = sc.UIIcon ∧ sr.UIColor = sc.UIColor :=
  have h := update_maps_like_create Examples.Quote (Examples.answering Examples.urgentResponse)
    Examples.urgentPlan Examples.storedState (Examples.updateResponse Examples.storedState)
    Examples.emptyCreateResponse 7 Examples.urgentResponse rfl rfl (by decide) rfl rfl
  ⟨h.1, h.2 Examples.urgentState (Examples.readResponse Examples.urgentState) 7 rfl (by decide)
    rfl rfl rfl rfl⟩

/-- C4: Create followed by Read is a round trip. When the client's Create returns
tp (an entity whose ID is a Go int) and the client's Get on tp.ID returns the
same tp, the id that Create writes parses back to tp.ID, Read of the state
Create wrote succeeds without a diagnostic after the one call Get(tp.ID), and
writes that very state; a further Read writes it again. More generally Read is
idempotent: Read of the state a Read wrote, answered alike, writes the same
state. -/
theorem create_then_read_round_trip (Quote : go.string → go.string)
    (r : resourceTicketPriority) (plan : TicketPriority)
    (respC : resource.CreateResponse) (respR : resource.ReadResponse)
    (tp : client.TicketPriority)
    (hC : respC.Diagnostics.HasError = false)
    (hR : respR.Diagnostics.HasError = false)
    (hint : strconv.isInt tp.ID)
    (hcre : r.client.CreateTicketPriority (resourceTicketPriority.Create.tpreq plan) = .ok tp)
    (hget : r.client.GetTicketPriority tp.ID = .ok tp) :
    (∃ st, (r.Create { Plan := { Raw := plan } } respC).resp.State.Raw = some st ∧
      strconv.Atoi st.ID.ValueString = .ok tp.ID ∧
      (r.Read Quote { State := (r.Create { Plan := { Raw := plan } } respC).resp.State }
        respR).resp.State.Raw = some st ∧
      (r.Read Quote { State := (r.Create { Plan := { Raw := plan } } respC).resp.State }
        respR).resp.Diagnostics = respR.Diagnostics ∧
      (r.Read Quote { State := (r.Create { Plan := { Raw := plan } } respC).resp.State }
        respR).calls = [.GetTicketPriority tp.ID] ∧
      (r.Read Quote { State := (r.Read Quote
          { State := (r.Create { Plan := { Raw := plan } } respC).resp.State }
          respR).resp.State } respR).resp.State.Raw = some st) ∧
    ∀ (prior : TicketPriority) (priorID : Int) (newtp : client.TicketPriority),
      strconv.Atoi prior.ID.ValueString = .ok priorID →
      r.client.GetTicketPriority priorID = .ok newtp →
      ∃ st, (r.Read Quote { State := { Raw := some prior } } respR).resp.State.Raw = some st ∧
        (r.Read Quote { State := (r.Read Quote { State := { Raw := some prior } }
          respR).resp.State } respR).resp.State.Raw = some st := by
  have hparse : strconv.Atoi (types.StringValue (strconv.Itoa tp.ID)).ValueString = .ok tp.ID :=
    strconv.Atoi_Itoa tp.ID hint
  constructor
  · rw [resourceTicketPriority.Create_ok r _ respC tp hC hcre]
    have hread := resourceTicketPriority.Read_ok Quote r
      { State := { Raw := some (reconciled plan (types.StringValue (strconv.Itoa tp.ID)) tp) } }
      respR _ tp.ID tp rfl hR hparse hget
    refine ⟨_, rfl, hparse, ?_, ?_, ?_, ?_⟩
    · rw [hread]; simp only [reconciled_ID, reconciled_idem]
    · rw [hread]
    · rw [hread]
    · rw [hread]
      simp only [reconciled_ID, reconciled_idem]
      rw [hread]
      simp only [reconciled_ID, reconciled_idem]
  · intro prior priorID newtp hid hg
    have hread := resourceTicketPriority.Read_ok Quote r
      { State := { Raw := some prior } } respR prior priorID newtp rfl hR hid hg
    rw [hread]
    have hread2 := resourceTicketPriority.Read_ok Quote r
      { State := { Raw := some (reconciled prior prior.ID newtp) } } respR _ priorID newtp rfl
      hR hid hg
    refine ⟨_, rfl, ?_⟩
    rw [hread2]
    simp only [reconciled_ID, reconciled_idem]

/-- The round trip on the example of the spec: Create with the plan named Urgent,
answered with id 7, then Read against the same entity. -/
theorem create_then_read_round_trip_witness :
    strconv.isInt Examples.urgentResponse.ID ∧
    (∃ st, (resourceTicketPriority.Create (Examples.answering Examples.urgentResponse)
        { Plan := { Raw := Examples.urgentPlan } } Examples.emptyCreateResponse).resp.State.Raw =
          some st ∧
      strconv.Atoi st.ID.ValueString = .ok Examples.urgentResponse.ID ∧
      (resourceTicketPriority.Read Examples.Quote (Examples.answering Examples.urgentResponse)
        { State := (resourceTicketPriority.Create (Examples.answering Examples.urgentResponse)
            { Plan := { Raw := Examples.urgentPlan } } Examples.emptyCreateResponse).resp.State }
        (Examples.readResponse Examples.urgentState)).resp.State.Raw = some st) ∧
    (resourceTicketPriority.Read Examples.Quote (Examples.answering Examples.urgentResponse)
      { State := (resourceTicketPriority.Create (Examples.answering Examples.urgentResponse)
          { Plan := { Raw := Examples.urgentPlan } } Examples.emptyCreateResponse).resp.State }
      (Examples.readResponse Examples.urgentState)).resp.State.Raw = some Examples.urgentState :=
  have h := (create_then_read_round_trip Examples.Quote
    (Examples.answering Examples.urgentResponse) Examples.urgentPlan
    Examples.emptyCreateResponse (Examples.readResponse Examples.urgentState)
    Examples.urgentResponse rfl rfl (by decide) rfl rfl).1
  ⟨by decide, (let ⟨st, h1, h2, h3, _⟩ := h; ⟨st, h1, h2, h3⟩), by decide⟩

/-- C5: the defaultTrue plan modifier, attached to active in the schema, leaves
in the response the known value true when the plan value of the request is
unknown, and leaves the plan value of the response as it was otherwise; on a
response that starts from the request's value it returns a known true, a known
false and null unchanged, so a known false never becomes true; and it adds no
diagnostic. -/
theorem defaultTrue_sets_true_only_when_unknown (req : planmodifier.BoolRequest)
    (resp : planmodifier.BoolResponse) (diags : diag.Diagnostics) (b : go.bool) :
    (defaultTrue.PlanModifyBool req resp).PlanValue =
      (if req.PlanValue.IsUnknown = true then types.BoolValue true else resp.PlanValue) ∧
    (defaultTrue.PlanModifyBool req resp).Diagnostics = resp.Diagnostics ∧
    (defaultTrue.PlanModifyBool { PlanValue := .unknown }
      { PlanValue := .unknown, Diagnostics := diags }).PlanValue = types.BoolValue true ∧
    (defaultTrue.PlanModifyBool { PlanValue := .known b }
      { PlanValue := .known b, Diagnostics := diags }).PlanValue = types.BoolValue b ∧
    (defaultTrue.PlanModifyBool { PlanValue := .null }
      { PlanValue := .null, Diagnostics := diags }).PlanValue = .null ∧
    (resourceTicketPriority.GetSchema.lookup "active").map (fun a => a.PlanModifiers) =
      some [.defaultTrue, .UseStateForUnknown] := by
  refine ⟨?_, ?_, rfl, rfl, rfl, by decide⟩
  · cases h : req.PlanValue <;>
      simp [defaultTrue.PlanModifyBool, tfsdk.ValueAs, diag.Diagnostics.HasError,
        types.Bool.IsUnknown, h]
  · cases h : req.PlanValue <;>
      simp [defaultTrue.PlanModifyBool, tfsdk.ValueAs, diag.Diagnostics.HasError,
        types.Bool.IsUnknown, diag.Append_nil, h]

/-- C6: for Read, Update and Delete on a state whose id does not parse as an
integer, the operation adds one error diagnostic, calls the client not at all
and leaves the state of the response as it was; and when the id parses, the one
call it makes carries the parsed integer: as the argument of Get, as the ID of
the request of Update, as the ID of the request of Delete. -/
theorem id_parse_failure_stops_before_client (Quote : go.string → go.string)
    (r : resourceTicketPriority) (plan state : TicketPriority)
    (respR : resource.ReadResponse) (respU : resource.UpdateResponse)
    (respD : resource.DeleteResponse)
    (hR : respR.Diagnostics.HasError = false)
    (hU : respU.Diagnostics.HasError = false)
    (hD : respD.Diagnostics.HasError = false) :
    (∀ err, strconv.Atoi state.ID.ValueString = .error err →
      ((r.Read Quote { State := { Raw := some state } } respR).calls = [] ∧
        (r.Read Quote { State := { Raw := some state } } respR).resp.State = respR.State ∧
        ∃ d, d.Severity = .SeverityError ∧
          (r.Read Quote { State := { Raw := some state } } respR).resp.Diagnostics =
            respR.Diagnostics ++ [d]) ∧
      ((r.Update Quote { Plan := { Raw := plan }, State := { Raw := some state } }
          respU).calls = [] ∧
        (r.Update Quote { Plan := { Raw := plan }, State := { Raw := some state } }
          respU).resp.State = respU.State ∧
        ∃ d, d.Severity = .SeverityError ∧
          (r.Update Quote { Plan := { Raw := plan }, State := { Raw := some state } }
            respU).resp.Diagnostics = respU.Diagnostics ++ [d]) ∧
      ((r.Delete Quote { State := { Raw := some state } } respD).calls = [] ∧
        (r.Delete Quote { State := { Raw := some state } } respD).resp.State = respD.State ∧
        ∃ d, d.Severity = .SeverityError ∧
          (r.Delete Quote { State := { Raw := some state } } respD).resp.Diagnostics =
            respD.Diagnostics ++ [d])) ∧
    (∀ tpID, strconv.Atoi state.ID.ValueString = .ok tpID →
      (r.Read Quote { State := { Raw := some state } } respR).calls =
        [.GetTicketPriority tpID] ∧
      (∃ tp, (r.Update Quote { Plan := { Raw := plan }, State := { Raw := some state } }
          respU).calls = [.UpdateTicketPriority tp] ∧ tp.ID = tpID) ∧
      (∃ tp, (r.Delete Quote { State := { Raw := some state } } respD).calls =
          [.DeleteTicketPriority tp] ∧ tp.ID = tpID)) := by
  constructor
  · intro err hid
    rw [resourceTicketPriority.Read_parse_error Quote r _ respR state err rfl hR hid,
      resourceTicketPriority.Update_parse_error Quote r _ respU state err rfl hU hid,
      resourceTicketPriority.Delete_parse_error Quote r _ respD state err rfl hD hid]
    exact ⟨⟨rfl, rfl, _, rfl, rfl⟩, ⟨rfl, rfl, _, rfl, rfl⟩, ⟨rfl, rfl, _, rfl, rfl⟩⟩
  · intro tpID hid
    refine ⟨?_, ?_, ?_⟩
    · cases hg : r.client.GetTicketPriority tpID with
      | error e => rw [resourceTicketPriority.Read_error Quote r _ respR state tpID e rfl hR hid hg]
      | ok tp => rw [resourceTicketPriority.Read_ok Quote r _ respR state tpID tp rfl hR hid hg]
    · refine ⟨resourceTicketPriority.Update.updatedTP tpID plan, ?_, rfl⟩
      cases hu : r.client.UpdateTicketPriority
          (resourceTicketPriority.Update.updatedTP tpID plan) with
      | error e =>
        rw [resourceTicketPriority.Update_error Quote r _ respU state tpID e rfl hU hid hu]
      | ok tp =>
        rw [resourceTicketPriority.Update_ok Quote r _ respU state tpID tp rfl hU hid hu]
    · refine ⟨{ client.TicketPriority.zero with ID := tpID }, ?_, rfl⟩
      cases hd : r.client.DeleteTicketPriority { client.TicketPriority.zero with ID := tpID } with
      | some e =>
        rw [resourceTicketPriority.Delete_error Quote r _ respD state tpID e rfl hD hid hd]
      | none => rw [resourceTicketPriority.Delete_ok Quote r _ respD state tpID rfl hD hid hd]

/-- On the state whose id is the word seven, Read, Update and Delete call the
client not at all; on the state whose id is 7, each makes its one call with the
integer 7. -/
theorem id_parse_failure_stops_before_client_witness :
    ((resourceTicketPriority.Read Examples.Quote (Examples.answering Examples.storedEntity)
        { State := { Raw := some Examples.malformedState } }
        (Examples.readResponse Examples.malformedState)).calls = [] ∧
      (resourceTicketPriority.Update Examples.Quote (Examples.answering Examples.storedEntity)
        { Plan := { Raw := Examples.urgentPlan },
          State := { Raw := some Examples.malformedState } }
        (Examples.updateResponse Examples.malformedState)).calls = [] ∧
      (resourceTicketPriority.Delete Examples.Quote (Examples.answering Examples.storedEntity)
        { State := { Raw := some Examples.malformedState } }
        (Examples.deleteResponse Examples.malformedState)).calls = []) ∧
    (resourceTicketPriority.Read Examples.Quote (Examples.answering Examples.storedEntity)
        { State := { Raw := some Examples.storedState } }
        (Examples.readResponse Examples.storedState)).calls = [.GetTicketPriority 7] :=
  have h := (id_parse_failure_stops_before_client Examples.Quote
    (Examples.answering Examples.storedEntity) Examples.urgentPlan Examples.malformedState
    (Examples.readResponse Examples.malformedState)
    (Examples.updateResponse Examples.malformedState)
    (Examples.deleteResponse Examples.malformedState) rfl rfl rfl).1
    { Func := "Atoi", Num := "seven", Err := .ErrSyntax } (by decide)
  have k := (id_parse_failure_stops_before_client Examples.Quote
    (Examples.answering Examples.storedEntity) Examples.urgentPlan Examples.storedState
    (Examples.readResponse Examples.storedState)
    (Examples.updateResponse Examples.storedState)
    (Examples.deleteResponse Examples.storedState) rfl rfl rfl).2 7 (by decide)
  ⟨⟨h.1.1, h.2.1.1, h.2.2.1⟩, k.1⟩

/-- C7: in each of Create, Read, Update and Delete, when the one client call
returns an error, the operation adds exactly one diagnostic, an error whose
detail contains the text of the client's error (and, for Read, Update and
Delete, the id string of the state), and leaves the state of the response as it
was handed in; when the client call succeeds, the diagnostics stay as they
were. -/
theorem client_error_adds_one_error_diagnostic (Quote : go.string → go.string)
    (r : resourceTicketPriority) (plan state : TicketPriority)
    (respC : resource.CreateResponse) (respR : resource.ReadResponse)
    (respU : resource.UpdateResponse) (respD : resource.DeleteResponse) (tpID : Int)
    (hC : respC.Diagnostics.HasError = false)
    (hR : respR.Diagnostics.HasError = false)
    (hU : respU.Diagnostics.HasError = false)
    (hD : respD.Diagnostics.HasError = false)
    (hid : strconv.Atoi state.ID.ValueString = .ok tpID) :
    ((∀ err, r.client.CreateTicketPriority (resourceTicketPriority.Create.tpreq plan) =
          .error err →
        (∃ d, d.Severity = .SeverityError ∧ occursIn err d.Detail ∧
          (r.Create { Plan := { Raw := plan } } respC).resp.Diagnostics =
            respC.Diagnostics ++ [d]) ∧
        diag.Diagnostics.ErrorsCount
          (r.Create { Plan := { Raw := plan } } respC).resp.Diagnostics =
            diag.Diagnostics.ErrorsCount respC.Diagnostics + 1 ∧
        (r.Create { Plan := { Raw := plan } } respC).resp.State = respC.State) ∧
      (∀ tp, r.client.CreateTicketPriority (resourceTicketPriority.Create.tpreq plan) =
          .ok tp →
        (r.Create { Plan := { Raw := plan } } respC).resp.Diagnostics = respC.Diagnostics)) ∧
    ((∀ err, r.client.GetTicketPriority tpID = .error err →
        (∃ d, d.Severity = .SeverityError ∧ occursIn err d.Detail ∧
          occursIn state.ID.ValueString d.Detail ∧
          (r.Read Quote { State := { Raw := some state } } respR).resp.Diagnostics =
            respR.Diagnostics ++ [d]) ∧
        diag.Diagnostics.ErrorsCount
          (r.Read Quote { State := { Raw := some state } } respR).resp.Diagnostics =
            diag.Diagnostics.ErrorsCount respR.Diagnostics + 1 ∧
        (r.Read Quote { State := { Raw := some state } } respR).resp.State = respR.State) ∧
      (∀ tp, r.client.GetTicketPriority tpID = .ok tp →
        (r.Read Quote { State := { Raw := some state } } respR).resp.Diagnostics =
          respR.Diagnostics)) ∧
    ((∀ err, r.client.UpdateTicketPriority
          (resourceTicketPriority.Update.updatedTP tpID plan) = .error err →
        (∃ d, d.Severity = .SeverityError ∧ occursIn err d.Detail ∧
          occursIn state.ID.ValueString d.Detail ∧
          (r.Update Quote { Plan := { Raw := plan }, State := { Raw := some state } }
            respU).resp.Diagnostics = respU.Diagnostics ++ [d]) ∧
        diag.Diagnostics.ErrorsCount
          (r.Update Quote { Plan := { Raw := plan }, State := { Raw := some state } }
            respU).resp.Diagnostics = diag.Diagnostics.ErrorsCount respU.Diagnostics + 1 ∧
        (r.Update Quote { Plan := { Raw := plan }, State := { Raw := some state } }
          respU).resp.State = respU.State) ∧
      (∀ tp, r.client.UpdateTicketPriority
          (resourceTicketPriority.Update.updatedTP tpID plan) = .ok tp →
        (r.Update Quote { Plan := { Raw := plan }, State := { Raw := some state } }
          respU).resp.Diagnostics = respU.Diagnostics)) ∧
    ((∀ err, r.client.DeleteTicketPriority { client.TicketPriority.zero with ID := tpID } =
          some err →
        (∃ d, d.Severity = .SeverityError ∧ occursIn err d.Detail ∧
          occursIn state.ID.ValueString d.Detail ∧
          (r.Delete Quote { State := { Raw := some state } } respD).resp.Diagnostics =
            respD.Diagnostics ++ [d]) ∧
        diag.Diagnostics.ErrorsCount
          (r.Delete Quote { State := { Raw := some state } } respD).resp.Diagnostics =
            diag.Diagnostics.ErrorsCount respD.Diagnostics + 1 ∧
        (r.Delete Quote { State := { Raw := some state } } respD).resp.State = respD.State) ∧
      (r.client.DeleteTicketPriority { client.TicketPriority.zero with ID := tpID } = none →
        (r.Delete Quote { State := { Raw := some state } } respD).resp = respD)) := by
  refine ⟨⟨?_, ?_⟩, ⟨?_, ?_⟩, ⟨?_, ?_⟩, ⟨?_, ?_⟩⟩
  · intro err h
    rw [resourceTicketPriority.Create_error r _ respC err hC h]
    exact ⟨⟨_, rfl, occursIn_last _ _, rfl⟩, diag.ErrorsCount_append_error _ _ _, rfl⟩
  · intro tp h
    rw [resourceTicketPriority.Create_ok r _ respC tp hC h]
  · intro err h
    rw [resourceTicketPriority.Read_error Quote r _ respR state tpID err rfl hR hid h]
    exact ⟨⟨_, rfl, occursIn_last _ _, occursIn_middle _ _ _ _, rfl⟩,
      diag.ErrorsCount_append_error _ _ _, rfl⟩
  · intro tp h
    rw [resourceTicketPriority.Read_ok Quote r _ respR state tpID tp rfl hR hid h]
  · intro err h
    rw [resourceTicketPriority.Update_error Quote r _ respU state tpID err rfl hU hid h]
    exact ⟨⟨_, rfl, occursIn_last _ _, occursIn_middle _ _ _ _, rfl⟩,
      diag.ErrorsCount_append_error _ _ _, rfl⟩
  · intro tp h
    rw [resourceTicketPriority.Update_ok Quote r _ respU state tpID tp rfl hU hid h]
  · intro err h
    rw [resourceTicketPriority.Delete_error Quote r _ respD state tpID err rfl hD hid h]
    exact ⟨⟨_, rfl, occursIn_last _ _, occursIn_middle _ _ _ _, rfl⟩,
      diag.ErrorsCount_append_error _ _ _, rfl⟩
  · intro h
    rw [resourceTicketPriority.Delete_ok Quote r _ respD state tpID rfl hD hid h]

/-- Against a client that fails every call with the text boom, Create and Delete
on the stored state each end with the one error diagnostic that carries the
text, and the state of the response untouched. -/
theorem client_error_adds_one_error_diagnostic_witness :
    (resourceTicketPriority.Create (Examples.failing "boom")
      { Plan := { Raw := Examples.urgentPlan } } Examples.emptyCreateResponse).resp =
      { State := { Raw := none },
        Diagnostics := [diag.NewErrorDiagnostic "Error creating ticket_priotiry"
          "Could not create ticket_priority, unexpected error: boom"] } ∧
    diag.Diagnostics.ErrorsCount
      (resourceTicketPriority.Delete Examples.Quote (Examples.failing "boom")
        { State := { Raw := some Examples.storedState } }
        (Examples.deleteResponse Examples.storedState)).resp.Diagnostics =
      diag.Diagnostics.ErrorsCount (Examples.deleteResponse Examples.storedState).Diagnostics + 1 ∧
    (resourceTicketPriority.Delete Examples.Quote (Examples.failing "boom")
      { State := { Raw := some Examples.storedState } }
      (Examples.deleteResponse Examples.storedState)).resp.Diagnostics =
      [diag.NewErrorDiagnostic "Error deleting ticket_priority"
        "Could not delete ticket_priority 7: boom"] :=
  have h := client_error_adds_one_error_diagnostic Examples.Quote (Examples.failing "boom")
    Examples.urgentPlan Examples.storedState Examples.emptyCreateResponse
    (Examples.readResponse Examples.storedState) (Examples.updateResponse Examples.storedState)
    (Examples.deleteResponse Examples.storedState) 7 rfl rfl rfl rfl (by decide)
  ⟨by decide, (h.2.2.2.1 "boom" rfl).2.1, by decide⟩

/-- C10: the request sent to the client is built from the plan alone. Create
sends Name, Note, UIColor, UIIcon, Active and DefaultCreate as the plan holds
them, a null or unknown string as the empty string and a null or unknown bool
as false, with ID and the server-assigned fields at their zero value; Update
sends the same six fields from the plan, whatever the prior state holds for
them, together with the ID parsed from the id of the prior state. -/
theorem request_is_built_from_plan (Quote : go.string → go.string)
    (r : resourceTicketPriority) (plan state : TicketPriority)
    (respC : resource.CreateResponse) (respU : resource.UpdateResponse) (tpID : Int)
    (hC : respC.Diagnostics.HasError = false)
    (hU : respU.Diagnostics.HasError = false)
    (hid : strconv.Atoi state.ID.ValueString = .ok tpID) :
    (r.Create { Plan := { Raw := plan } } respC).calls =
      [.CreateTicketPriority
        { ID := 0, Name := plan.Name.ValueString, Note := plan.Note.ValueString,
          UIColor := plan.UIColor.ValueString, UIIcon := plan.UIIcon.ValueString,
          Active := plan.Active.ValueBool, DefaultCreate := plan.DefaultCreate.ValueBool,
          CreatedByID := 0, UpdatedByID := 0, CreatedAt := "", UpdatedAt := "" }] ∧
    (r.Update Quote { Plan := { Raw := plan }, State := { Raw := some state } } respU).calls =
      [.UpdateTicketPriority
        { ID := tpID, Name := plan.Name.ValueString, Note := plan.Note.ValueString,
          UIColor := plan.UIColor.ValueString, UIIcon := plan.UIIcon.ValueString,
          Active := plan.Active.ValueBool, DefaultCreate := plan.DefaultCreate.ValueBool,
          CreatedByID := 0, UpdatedByID := 0, CreatedAt := "", UpdatedAt := "" }] ∧
    types.String.null.ValueString = "" ∧ types.String.unknown.ValueString = "" ∧
    types.Bool.null.ValueBool = false ∧ types.Bool.unknown.ValueBool = false ∧
    (∀ v : go.string, (types.String.known v).ValueString = v) ∧
    (∀ b : go.bool, (types.Bool.known b).ValueBool = b) := by
  refine ⟨?_, ?_, rfl, rfl, rfl, rfl, fun _ => rfl, fun _ => rfl⟩
  · cases h : r.client.CreateTicketPriority (resourceTicketPriority.Create.tpreq plan) with
    | error e => rw [resourceTicketPriority.Create_error r _ respC e hC h]; rfl
    | ok tp => rw [resourceTicketPriority.Create_ok r _ respC tp hC h]; rfl
  · cases h : r.client.UpdateTicketPriority
        (resourceTicketPriority.Update.updatedTP tpID plan) with
    | error e =>
      rw [resourceTicketPriority.Update_error Quote r _ respU state tpID e rfl hU hid h]; rfl
    | ok tp =>
      rw [resourceTicketPriority.Update_ok Quote r _ respU state tpID tp rfl hU hid h]; rfl

/-- The plan of the example, sent by Create and by Update on the stored state:
the name, empty strings and false for everything left unset, and for Update the
ID 7 of the stored state. -/
theorem request_is_built_from_plan_witness :
    (resourceTicketPriority.Create (Examples.answering Examples.urgentResponse)
      { Plan := { Raw := Examples.urgentPlan } } Examples.emptyCreateResponse).calls =
      [.CreateTicketPriority
        { ID := 0, Name := "Urgent", Note := "", UIColor := "", UIIcon := "", Active := false,
          DefaultCreate := false, CreatedByID := 0, UpdatedByID := 0, CreatedAt := "",
          UpdatedAt := "" }] ∧
    (resourceTicketPriority.Update Examples.Quote (Examples.answering Examples.urgentResponse)
      { Plan := { Raw := Examples.urgentPlan }, State := { Raw := some Examples.storedState } }
      (Examples.updateResponse Examples.storedState)).calls =
      [.UpdateTicketPriority
        { ID := 7, Name := "Urgent", Note := "", UIColor := "", UIIcon := "", Active := false,
          DefaultCreate := false, CreatedByID := 0, UpdatedByID := 0, CreatedAt := "",
          UpdatedAt := "" }] :=
  have h := request_is_built_from_plan Examples.Quote
    (Examples.answering Examples.urgentResponse) Examples.urgentPlan Examples.storedState
    Examples.emptyCreateResponse (Examples.updateResponse Examples.storedState) 7 rfl rfl
    (by decide)
  ⟨h.1, h.2.1⟩

/-- C8, as stated, fails: the plan of the example leaves note and active unset,
and Update on the stored state sends the request with the empty note and active
false; the server that holds the note "call back" and active true and applies
the request as received ends with the empty note and active false, not with its
previous values. -/
theorem update_unset_field_keeps_server_value_counterexample :
    Examples.urgentPlan.Note.IsNull = true ∧ Examples.urgentPlan.Active.IsNull = true ∧
    (resourceTicketPriority.Update Examples.Quote (Examples.storing Examples.storedEntity)
      { Plan := { Raw := Examples.urgentPlan }, State := { Raw := some Examples.storedState } }
      (Examples.updateResponse Examples.storedState)).calls =
      [.UpdateTicketPriority
        { ID := 7, Name := "Urgent", Note := "", UIColor := "", UIIcon := "", Active := false,
          DefaultCreate := false, CreatedByID := 0, UpdatedByID := 0, CreatedAt := "",
          UpdatedAt := "" }] ∧
    Examples.storedEntity.Note = "call back" ∧ Examples.storedEntity.Active = true ∧
    (applyAsReceived Examples.storedEntity
      { ID := 7, Name := "Urgent", Note := "", UIColor := "", UIIcon := "", Active := false,
        DefaultCreate := false, CreatedByID := 0, UpdatedByID := 0, CreatedAt := "",
        UpdatedAt := "" }).Note = "" ∧
    (applyAsReceived Examples.storedEntity
      { ID := 7, Name := "Urgent", Note := "", UIColor := "", UIIcon := "", Active := false,
        DefaultCreate := false, CreatedByID := 0, UpdatedByID := 0, CreatedAt := "",
        UpdatedAt := "" }).Active = false ∧
    ¬ (∀ (plan state : TicketPriority) (prev req : client.TicketPriority),
        (resourceTicketPriority.Update Examples.Quote (Examples.storing prev)
          { Plan := { Raw := plan }, State := { Raw := some state } }
          (Examples.updateResponse state)).calls = [.UpdateTicketPriority req] →
        plan.Note.IsNull = true → (applyAsReceived prev req).Note = prev.Note) := by
  refine ⟨rfl, rfl, by decide, rfl, rfl, rfl, rfl, ?_⟩
  intro h
  have hfalse := h Examples.urgentPlan Examples.storedState Examples.storedEntity
    { ID := 7, Name := "Urgent", Note := "", UIColor := "", UIIcon := "", Active := false,
      DefaultCreate := false, CreatedByID := 0, UpdatedByID := 0, CreatedAt := "",
      UpdatedAt := "" } (by decide) rfl
  revert hfalse
  decide

/-- C8, amended: Update builds its request from the plan alone. When the id of
the prior state parses, the one request it sends holds, for an editable field
that is null in the plan, the zero value (the empty string for note, ui_icon and
ui_color, false for active and default_create), so a server that applies the
request as received stores that zero value; and the request is the same for
every prior state with the same id, whatever else that state holds. -/
theorem update_sends_zero_value_for_unset_field (Quote : go.string → go.string)
    (r : resourceTicketPriority) (plan state : TicketPriority)
    (resp : resource.UpdateResponse) (tpID : Int) (prev : client.TicketPriority)
    (hU : resp.Diagnostics.HasError = false)
    (hid : strconv.Atoi state.ID.ValueString = .ok tpID) :
    ∃ req, (r.Update Quote { Plan := { Raw := plan }, State := { Raw := some state } }
        resp).calls = [.UpdateTicketPriority req] ∧
      (plan.Note.IsNull = true → req.Note = "" ∧ (applyAsReceived prev req).Note = "") ∧
      (plan.UIIcon.IsNull = true → req.UIIcon = "" ∧ (applyAsReceived prev req).UIIcon = "") ∧
      (plan.UIColor.IsNull = true →
        req.UIColor = "" ∧ (applyAsReceived prev req).UIColor = "") ∧
      (plan.Active.IsNull = true →
        req.Active = false ∧ (applyAsReceived prev req).Active = false) ∧
      (plan.DefaultCreate.IsNull = true →
        req.DefaultCreate = false ∧ (applyAsReceived prev req).DefaultCreate = false) ∧
      ∀ other : TicketPriority, other.ID = state.ID →
        (r.Update Quote { Plan := { Raw := plan }, State := { Raw := some other } }
          resp).calls = [.UpdateTicketPriority req] := by
  have hcalls : ∀ st : TicketPriority, strconv.Atoi st.ID.ValueString = .ok tpID →
      (r.Update Quote { Plan := { Raw := plan }, State := { Raw := some st } } resp).calls =
        [.UpdateTicketPriority (resourceTicketPriority.Update.updatedTP tpID plan)] := by
    intro st hst
    cases h : r.client.UpdateTicketPriority
        (resourceTicketPriority.Update.updatedTP tpID plan) with
    | error e =>
      rw [resourceTicketPriority.Update_error Quote r _ resp st tpID e rfl hU hst h]
    | ok tp =>
      rw [resourceTicketPriority.Update_ok Quote r _ resp st tpID tp rfl hU hst h]
  refine ⟨resourceTicketPriority.Update.updatedTP tpID plan, hcalls state hid, ?_, ?_, ?_, ?_,
    ?_, ?_⟩
  · intro h
    cases hp : plan.Note <;>
      simp_all [resourceTicketPriority.Update.updatedTP, applyAsReceived,
        types.String.IsNull, types.String.ValueString]
  · intro h
    cases hp : plan.UIIcon <;>
      simp_all [resourceTicketPriority.Update.updatedTP, applyAsReceived,
        types.String.IsNull, types.String.ValueString]
  · intro h
    cases hp : plan.UIColor <;>
      simp_all [resourceTicketPriority.Update.updatedTP, applyAsReceived,
        types.String.IsNull, types.String.ValueString]
  · intro h
    cases hp : plan.Active <;>
      simp_all [resourceTicketPriority.Update.updatedTP, applyAsReceived,
        types.Bool.IsNull, types.Bool.ValueBool]
  · intro h
    cases hp : plan.DefaultCreate <;>
      simp_all [resourceTicketPriority.Update.updatedTP, applyAsReceived,
        types.Bool.IsNull, types.Bool.ValueBool]
  · intro other ho
    exact hcalls other (by rw [ho]; exact hid)

/-- The plan of the example on the stored state: the request holds the empty
note and active false, and the server that applies it stores them. -/
theorem update_sends_zero_value_for_unset_field_witness :
    ∃ req, (resourceTicketPriority.Update Examples.Quote
        (Examples.storing Examples.storedEntity)
        { Plan := { Raw := Examples.urgentPlan }, State := { Raw := some Examples.storedState } }
        (Examples.updateResponse Examples.storedState)).calls = [.UpdateTicketPriority req] ∧
      (req.Note = "" ∧ (applyAsReceived Examples.storedEntity req).Note = "") ∧
      (req.Active = false ∧ (applyAsReceived Examples.storedEntity req).Active = false) :=
  let ⟨req, h1, h2, _, _, h5, _⟩ := update_sends_zero_value_for_unset_field Examples.Quote
    (Examples.storing Examples.storedEntity) Examples.urgentPlan Examples.storedState
    (Examples.updateResponse Examples.storedState) 7 Examples.storedEntity rfl (by decide)
  ⟨req, h1, h2 rfl, h5 rfl⟩

/-- C9, as stated, fails for id after Read: the schema marks id computed; Read
of the state imported under the id 007, answered by the server with the entity
whose ID is 7, succeeds and writes the id 007 of the prior state, which is not
the decimal string 7 of the response's ID. -/
theorem read_overwrites_computed_id_counterexample :
    "id" ∈ resourceTicketPriority.computedAttributes ∧
    strconv.Atoi Examples.importedState.ID.ValueString = .ok Examples.storedEntity.ID ∧
    (resourceTicketPriority.Read Examples.Quote (Examples.answering Examples.storedEntity)
      { State := { Raw := some Examples.importedState } }
      (Examples.readResponse Examples.importedState)).resp.Diagnostics = [] ∧
    (resourceTicketPriority.Read Examples.Quote (Examples.answering Examples.storedEntity)
      { State := { Raw := some Examples.importedState } }
      (Examples.readResponse Examples.importedState)).resp.State.Raw =
      some { Examples.storedState with ID := types.StringValue "007" } ∧
    TicketPriority.attribute { Examples.storedState with ID := types.StringValue "007" } "id" =
      some (.String (types.StringValue "007")) ∧
    Examples.storedEntity.attribute "id" = some (.String (types.StringValue "7")) ∧
    TicketPriority.attribute { Examples.storedState with ID := types.StringValue "007" } "id" ≠
      Examples.storedEntity.attribute "id" := by
  refine ⟨by decide, by decide, by decide, by decide, by decide, by decide, by decide⟩

/-- C9, amended: the attributes the schema marks computed are id,
default_create, active, created_by_id, updated_by_id, created_at and updated_at.
After every successful Create, and after every successful Update, each of them
equals, in the written state, the value of that operation's server response (id
as the decimal string of the ID, the by_id attributes as int64s), whatever the
plan and the prior state hold; after every successful Read the same holds for
each of them except id, which Read keeps as the prior state held it. Each of the
three statements stands on the success of its own client call alone. -/
theorem computed_attributes_follow_response (Quote : go.string → go.string)
    (r : resourceTicketPriority) (plan state : TicketPriority)
    (respC : resource.CreateResponse) (respR : resource.ReadResponse)
    (respU : resource.UpdateResponse) :
    resourceTicketPriority.computedAttributes =
      ["id", "default_create", "active", "created_by_id", "updated_by_id", "created_at",
        "updated_at"] ∧
    (∀ tp : client.TicketPriority,
      respC.Diagnostics.HasError = false →
      r.client.CreateTicketPriority (resourceTicketPriority.Create.tpreq plan) = .ok tp →
      ∃ st, (r.Create { Plan := { Raw := plan } } respC).resp.State.Raw = some st ∧
        ∀ name ∈ resourceTicketPriority.computedAttributes,
          st.attribute name = tp.attribute name) ∧
    (∀ (tpID : Int) (tp : client.TicketPriority),
      respU.Diagnostics.HasError = false →
      strconv.Atoi state.ID.ValueString = .ok tpID →
      r.client.UpdateTicketPriority (resourceTicketPriority.Update.updatedTP tpID plan) =
        .ok tp →
      ∃ st, (r.Update Quote { Plan := { Raw := plan }, State := { Raw := some state } }
          respU).resp.State.Raw = some st ∧
        ∀ name ∈ resourceTicketPriority.computedAttributes,
          st.attribute name = tp.attribute name) ∧
    (∀ (tpID : Int) (tp : client.TicketPriority),
      respR.Diagnostics.HasError = false →
      strconv.Atoi state.ID.ValueString = .ok tpID →
      r.client.GetTicketPriority tpID = .ok tp →
      ∃ st, (r.Read Quote { State := { Raw := some state } } respR).resp.State.Raw = some st ∧
        st.ID = state.ID ∧
        ∀ name ∈ resourceTicketPriority.computedAttributes, name ≠ "id" →
          st.attribute name = tp.attribute name) := by
  have hnames : resourceTicketPriority.computedAttributes =
      ["id", "default_create", "active", "created_by_id", "updated_by_id", "created_at",
        "updated_at"] := by decide
  rw [hnames]
  refine ⟨rfl, ?_, ?_, ?_⟩
  · intro tp hC hcre
    rw [resourceTicketPriority.Create_ok r _ respC tp hC hcre]
    refine ⟨_, rfl, ?_⟩
    intro name hn
    simp only [List.mem_cons, List.mem_singleton, List.not_mem_nil, or_false] at hn
    rcases hn with rfl | rfl | rfl | rfl | rfl | rfl | rfl <;>
      simp [TicketPriority.attribute, client.TicketPriority.attribute, reconciled]
  · intro tpID tp hU hid hupd
    rw [resourceTicketPriority.Update_ok Quote r _ respU state tpID tp rfl hU hid hupd]
    refine ⟨_, rfl, ?_⟩
    intro name hn
    simp only [List.mem_cons, List.mem_singleton, List.not_mem_nil, or_false] at hn
    rcases hn with rfl | rfl | rfl | rfl | rfl | rfl | rfl <;>
      simp [TicketPriority.attribute, client.TicketPriority.attribute, reconciled]
  · intro tpID tp hR hid hget
    rw [resourceTicketPriority.Read_ok Quote r _ respR state tpID tp rfl hR hid hget]
    refine ⟨_, rfl, rfl, ?_⟩
    intro name hn hne
    simp only [List.mem_cons, List.mem_singleton, List.not_mem_nil, or_false] at hn
    rcases hn with rfl | rfl | rfl | rfl | rfl | rfl | rfl <;>
      simp [TicketPriority.attribute, client.TicketPriority.attribute, reconciled] at hne ⊢

/-- Each statement on a client of its own. Create with the plan of the example,
answered with the stored entity, writes the computed attributes of the entity.
Read of the state imported under the id 007, on a client that can only read and
answers with the stored entity, writes the computed attributes of the entity
except id, and keeps the id 007. Update of the stored state, answered with the
response of the example, writes the computed attributes of that response. -/
theorem computed_attributes_follow_response_witness :
    (∃ st, (resourceTicketPriority.Create (Examples.answering Examples.storedEntity)
        { Plan := { Raw := Examples.urgentPlan } } Examples.emptyCreateResponse).resp.State.Raw =
          some st ∧
      ∀ name ∈ resourceTicketPriority.computedAttributes,
        st.attribute name = Examples.storedEntity.attribute name) ∧
    (∃ st, (resourceTicketPriority.Read Examples.Quote
        (Examples.readOnly Examples.storedEntity "read only")
        { State := { Raw := some Examples.importedState } }
        (Examples.readResponse Examples.importedState)).resp.State.Raw = some st ∧
      st.ID = Examples.importedState.ID ∧
      ∀ name ∈ resourceTicketPriority.computedAttributes, name ≠ "id" →
        st.attribute name = Examples.storedEntity.attribute name) ∧
    (∃ st, (resourceTicketPriority.Update Examples.Quote
        (Examples.answering Examples.urgentResponse)
        { Plan := { Raw := Examples.urgentPlan }, State := { Raw := some Examples.storedState } }
        (Examples.updateResponse Examples.storedState)).resp.State.Raw = some st ∧
      ∀ name ∈ resourceTicketPriority.computedAttributes,
        st.attribute name = Examples.urgentResponse.attribute name) ∧
    (resourceTicketPriority.Read Examples.Quote
      (Examples.readOnly Examples.storedEntity "read only")
      { State := { Raw := some Examples.importedState } }
      (Examples.readResponse Examples.importedState)).resp.State.Raw =
      some { Examples.storedState with ID := types.StringValue "007" } :=
  ⟨(computed_attributes_follow_response Examples.Quote
      (Examples.answering Examples.storedEntity) Examples.urgentPlan Examples.storedState
      Examples.emptyCreateResponse (Examples.readResponse Examples.storedState)
      (Examples.updateResponse Examples.storedState)).2.1 Examples.storedEntity rfl rfl,
   (computed_attributes_follow_response Examples.Quote
      (Examples.readOnly Examples.storedEntity "read only") Examples.urgentPlan
      Examples.importedState Examples.emptyCreateResponse
      (Examples.readResponse Examples.importedState)
      (Examples.updateResponse Examples.importedState)).2.2.2 7 Examples.storedEntity rfl
      (by decide) rfl,
   (computed_attributes_follow_response Examples.Quote
      (Examples.answering Examples.urgentResponse) Examples.urgentPlan Examples.storedState
      Examples.emptyCreateResponse (Examples.readResponse Examples.storedState)
      (Examples.updateResponse Examples.storedState)).2.2.1 7 Examples.urgentResponse rfl
      (by decide) rfl,
   by decide⟩
